import Mathlib

/-!
# Player autonav (`src/player_autonav.c`)

A shallow embedding of the autonav controller.  The C file works on global
mutable state (`player`, `player_acc`, `dt_mod`, `cur_system`) and talks to the
rest of the game through calls whose bodies live in other files.  Here the
globals become one record, `World`, passed explicitly, and every call that
leaves the file is appended to `World.trace` in the order it is made.

Numbers are `double` in C; the embedding is generic in a linearly ordered
field `K`, so the definitions evaluate over `ℚ` and the numerical statements
can be read over `ℝ`.
-/

namespace Naev

/-! ## Data model -/

/-- Modelled from the spec: the type `Vector2d` is declared in `physics.h`.  A 2D vector
kept in cartesian (`x`, `y`) and polar (`mod`, `angle`) form at once; `mod` is what the
spec writes `|velocity|`, `angle` the direction of the vector. -/
structure Vector2d (K : Type) where
  x : K
  y : K
  mod : K
  angle : K
deriving DecidableEq

/-- Modelled from the spec: macro `VMOD(v)` of `physics.h`, the modulus `|v|` carried by
the vector. -/
def VMOD {K : Type} (v : Vector2d K) : K := v.mod

/-- Modelled from the spec: macro `VANGLE(v)` of `physics.h`, the direction carried by
the vector. -/
def VANGLE {K : Type} (v : Vector2d K) : K := v.angle

/-- Modelled from the spec: macro `vect_dist2(v, u)` of `physics.h`, the squared distance
between two points ("squaredDistance(targetPos, vehiclePos)"). -/
def vect_dist2 {K : Type} [LinearOrderedField K] (v u : Vector2d K) : K :=
  (v.x - u.x) * (v.x - u.x) + (v.y - u.y) * (v.y - u.y)

/-- The part of `Solid` (reached through `p->solid`) that autonav reads. -/
structure Solid (K : Type) where
  mass : K
  pos : Vector2d K
  vel : Vector2d K
deriving DecidableEq

/-- The part of `Pilot` that autonav reads.  The three booleans are the pilot flags
`PILOT_MANUAL_CONTROL`, `PILOT_HYPERSPACE` and `PILOT_HYP_PREP` as seen by
`pilot_isFlag`. -/
structure Pilot (K : Type) where
  solid : Solid K
  speed : K
  thrust : K
  turn : K
  fuel : K
  lockons : Int
  nav_hyperspace : Int
  manual_control : Bool
  hyperspace : Bool
  hyp_prep : Bool
deriving DecidableEq

/-- Values of `player.autonav`. -/
inductive AutonavMode where
  | AUTONAV_JUMP_APPROACH
  | AUTONAV_JUMP_BRAKE
  | AUTONAV_POS_APPROACH
deriving DecidableEq

open AutonavMode

/-- The part of the global `player` that autonav uses: the pilot pointer `player.p`
(`none` is `NULL`), the `PLAYER_AUTONAV` bit of the player flags, `player.autonav` and
`player.autonav_pos`. -/
structure Player (K : Type) where
  p : Option (Pilot K)
  flag_autonav : Bool
  autonav : AutonavMode
  autonav_pos : Vector2d K
deriving DecidableEq

/-- A jump point of a star system; only its position is read here. -/
structure JumpPoint (K : Type) where
  pos : Vector2d K
deriving DecidableEq

/-- The part of `StarSystem` behind `cur_system` that autonav reads: the array `jumps`. -/
structure StarSystem (K : Type) where
  jumps : List (JumpPoint K)
deriving DecidableEq

/-- Calls made by `player_autonav.c` into other files, with their arguments.
`player_message` carries the formatted text. -/
inductive Call (K : Type) where
  | player_message (text : String)
  | pilot_face (dir : K)
  | player_accel (acc : K)
  | player_accelOver
  | pause_compressEnd
  | pilot_hyperspaceAbort
  | player_jump
  | window_destroy (wid : Nat)
deriving DecidableEq

/-- All global state touched by `player_autonav.c`, plus the trace of outgoing calls
(oldest first). -/
structure World (K : Type) where
  player : Player K
  player_acc : K
  dt_mod : K
  cur_system : StarSystem K
  trace : List (Call K)
deriving DecidableEq

/-- Constants and primitives that `player_autonav.c` takes from headers and other files.
They are parameters of the embedding: nothing is assumed about them beyond their types.
`pilot_face p dir` is the facing error returned by the turn primitive; `MOD` and `ANGLE`
are the polar conversions used by `vect_cset`. -/
structure Env (K : Type) where
  HYPERSPACE_FUEL : K
  MIN_DIR_ERR : K
  MIN_VEL_ERR : K
  M_PI : K
  MOD : K → K → K
  ANGLE : K → K → K
  vect_angle : Vector2d K → Vector2d K → K
  pilot_face : Pilot K → K → K
  space_canHyperspace : Pilot K → StarSystem K → Bool

/-- Ways in which the C code can leave defined behaviour on a well-typed state. -/
inductive Fault where
  | null_pilot
  | jump_index
deriving DecidableEq

section Ops

variable {K : Type} [LinearOrderedField K]

/-! ## Calls into other files -/

/-- Record an outgoing call at the end of the trace. -/
def World.call (w : World K) (c : Call K) : World K :=
  { w with trace := w.trace ++ [c] }

/-- Call of `player_message` with the already formatted text. -/
def player_message (text : String) (w : World K) : World K :=
  w.call (Call.player_message text)

/-- Modelled from the spec: `player_accel` lives in `player.c`; the spec describes it as
"set commanded acceleration level", so it stores its argument in `player_acc`. -/
def player_accel (acc : K) (w : World K) : World K :=
  { w.call (Call.player_accel acc) with player_acc := acc }

/-- Modelled from the spec: `player_accelOver` lives in `player.c`; the spec describes it
as "force acceleration off", so it stores 0 in `player_acc`. -/
def player_accelOver (w : World K) : World K :=
  { w.call Call.player_accelOver with player_acc := 0 }

/-- Macro `player_setFlag(PLAYER_AUTONAV)`. -/
def player_setFlag_AUTONAV (w : World K) : World K :=
  { w with player := { w.player with flag_autonav := true } }

/-- Macro `player_rmFlag(PLAYER_AUTONAV)`. -/
def player_rmFlag_AUTONAV (w : World K) : World K :=
  { w with player := { w.player with flag_autonav := false } }

/-- Assignment `player.autonav = m`. -/
def set_autonav (m : AutonavMode) (w : World K) : World K :=
  { w with player := { w.player with autonav := m } }

/-- Modelled from the spec: function `vect_cset(&v, x, y)` of `physics.c`, which stores
the point `(x, y)` together with its polar form. -/
def vect_cset (E : Env K) (x y : K) : Vector2d K :=
  { x := x, y := y, mod := E.MOD x y, angle := E.ANGLE x y }

/-- Element `jumps[i]` of the current system, `none` when `i` is not an index of the
array. -/
def jump_at (sys : StarSystem K) (i : Int) : Option (JumpPoint K) :=
  if 0 ≤ i then sys.jumps.get? i.toNat else none

/-! ## Messages -/

/-- Text of the red "not enough fuel" message of the two start functions. -/
def msg_no_fuel : String := "\x1brNot enough fuel to jump for autonav."

/-- Text of the "initialized" message. -/
def msg_initialized : String := "\x1bpAutonav initialized."

/-- Text printed by `player_autonavAbort`: format `"\erAutonav aborted: %s!"` when a
reason is given, `"\erAutonav aborted!"` for `NULL`. -/
def msg_aborted : Option String → String
  | some reason => "\x1brAutonav aborted: " ++ reason ++ "!"
  | none => "\x1brAutonav aborted!"

/-- Text of the notice that follows `pilot_hyperspaceAbort`. -/
def msg_hyp_abort : String := "\x1bpAborting hyperspace sequence."

/-- Text of the arrival message of a position session. -/
def msg_arrived : String := "\x1bpAutonav arrived at position."

/-! ## The functions of `player_autonav.c` -/

/-- Function `player_autonavStart` (lines 35-52). -/
def player_autonavStart (E : Env K) (w : World K) : Except Fault (World K) :=
  match w.player.p with
  | none => Except.error Fault.null_pilot
  | some p =>
    if p.manual_control then Except.ok w
    else if p.nav_hyperspace = -1 then Except.ok w
    else if p.fuel < E.HYPERSPACE_FUEL then Except.ok (player_message msg_no_fuel w)
    else
      Except.ok (set_autonav AUTONAV_JUMP_APPROACH
        (player_setFlag_AUTONAV (player_message msg_initialized w)))

/-- Function `player_autonavStartWindow` (lines 58-74); `str` is unused. -/
def player_autonavStartWindow (E : Env K) (wid : Nat) (w : World K) :
    Except Fault (World K) :=
  match w.player.p with
  | none => Except.error Fault.null_pilot
  | some p =>
    if p.nav_hyperspace = -1 then Except.ok w
    else if p.fuel < E.HYPERSPACE_FUEL then Except.ok (player_message msg_no_fuel w)
    else
      Except.ok ((player_setFlag_AUTONAV (player_message msg_initialized w)).call
        (Call.window_destroy wid))

/-- Function `player_autonavPos` (lines 80-86). -/
def player_autonavPos (E : Env K) (x y : K) (w : World K) : World K :=
  player_setFlag_AUTONAV (player_message msg_initialized
    { set_autonav AUTONAV_POS_APPROACH w with
      player := { (set_autonav AUTONAV_POS_APPROACH w).player with
        autonav_pos := vect_cset E x y } })

/-- Function `player_autonavAbort` (lines 92-118); `reason = none` is a `NULL` reason. -/
def player_autonavAbort (reason : Option String) (w : World K) : World K :=
  match w.player.p with
  | none => w
  | some p =>
    if p.hyperspace then w
    else if w.player.flag_autonav then
      let w1 := player_message (msg_aborted reason) w
      let w2 := player_rmFlag_AUTONAV w1
      let w3 := player_accelOver w2
      let w4 := if w3.dt_mod ≠ 1 then w3.call Call.pause_compressEnd else w3
      if p.hyp_prep then
        player_message msg_hyp_abort (w4.call Call.pilot_hyperspaceAbort)
      else w4
    else w

/-- Local `time` of `player_autonavApproach` (lines 183-184). -/
def approach_time (p : Pilot K) : K :=
  min (1.5 * p.speed) (VMOD p.solid.vel) / (p.thrust / p.solid.mass)

/-- Local `vel` of `player_autonavApproach` (line 187). -/
def approach_vel (p : Pilot K) : K :=
  min p.speed (VMOD p.solid.vel)

/-- Local `dist` of `player_autonavApproach` (lines 190-191). -/
def approach_dist (p : Pilot K) : K :=
  approach_vel p * (approach_time p + 1.1 * 180 / p.turn) -
    0.5 * (p.thrust / p.solid.mass) * approach_time p * approach_time p

/-- The thrust gating shared by both actuators (lines 175-180 and 213-218): full thrust
when the facing error `d` is within `MIN_DIR_ERR`, thrust off otherwise. -/
def thrust_gate (E : Env K) (d : K) (w : World K) : World K :=
  if |d| < E.MIN_DIR_ERR then
    if w.player_acc < 1 then player_accel 1 w else w
  else if w.player_acc > 0 then player_accelOver w
  else w

/-- Function `player_autonavApproach` (lines 169-199); the result pairs the returned
`int` with the world after the call. -/
def player_autonavApproach (E : Env K) (pos : Vector2d K) (w : World K) :
    Except Fault (Int × World K) :=
  match w.player.p with
  | none => Except.error Fault.null_pilot
  | some p =>
    let dir := E.vect_angle p.solid.pos pos
    let d := E.pilot_face p dir
    let w1 := thrust_gate E d (w.call (Call.pilot_face dir))
    if approach_dist p * approach_dist p > vect_dist2 pos p.solid.pos then
      Except.ok (1, player_accelOver w1)
    else Except.ok (0, w1)

/-- Function `player_autonavBrake` (lines 207-225). -/
def player_autonavBrake (E : Env K) (w : World K) : Except Fault (Int × World K) :=
  match w.player.p with
  | none => Except.error Fault.null_pilot
  | some p =>
    let dir := VANGLE p.solid.vel + E.M_PI
    let d := E.pilot_face p dir
    let w1 := thrust_gate E d (w.call (Call.pilot_face dir))
    if VMOD p.solid.vel < E.MIN_VEL_ERR then
      Except.ok (1, player_accelOver w1)
    else Except.ok (0, w1)

/-- Function `player_autonav` (lines 124-160).  In the `AUTONAV_JUMP_APPROACH` case the
jump point is read through `&jp->pos`, so the element must exist; in the
`AUTONAV_JUMP_BRAKE` case `jp` is assigned but never read, only `player.p` is
dereferenced. -/
def player_autonav (E : Env K) (w : World K) : Except Fault (World K) :=
  match w.player.autonav with
  | AUTONAV_JUMP_APPROACH =>
    match w.player.p with
    | none => Except.error Fault.null_pilot
    | some p =>
      match jump_at w.cur_system p.nav_hyperspace with
      | none => Except.error Fault.jump_index
      | some jp =>
        match player_autonavApproach E jp.pos w with
        | Except.error e => Except.error e
        | Except.ok (ret, w1) =>
          if ret ≠ 0 then Except.ok (set_autonav AUTONAV_JUMP_BRAKE w1)
          else Except.ok w1
  | AUTONAV_JUMP_BRAKE =>
    match player_autonavBrake E w with
    | Except.error e => Except.error e
    | Except.ok (ret, w1) =>
      match w1.player.p with
      | none => Except.error Fault.null_pilot
      | some p =>
        if E.space_canHyperspace p w1.cur_system then
          Except.ok ((player_accelOver (set_autonav AUTONAV_JUMP_APPROACH w1)).call
            Call.player_jump)
        else if ret ≠ 0 then Except.ok (set_autonav AUTONAV_JUMP_APPROACH w1)
        else Except.ok w1
  | AUTONAV_POS_APPROACH =>
    match player_autonavApproach E w.player.autonav_pos w with
    | Except.error e => Except.error e
    | Except.ok (ret, w1) =>
      if ret ≠ 0 then Except.ok (player_message msg_arrived (player_rmFlag_AUTONAV w1))
      else Except.ok w1

/-- Function `player_thinkAutonav` (lines 233-255).  Only `lockons` and `fuel` of
`pplayer` are read, both before anything is written. -/
def player_thinkAutonav (E : Env K) (pplayer : Pilot K) (w : World K) :
    Except Fault (World K) :=
  if pplayer.lockons > 0 then
    Except.ok (player_autonavAbort (some "Missile Lockon Detected") w)
  else if w.player.autonav = AUTONAV_JUMP_APPROACH ∨
      w.player.autonav = AUTONAV_JUMP_BRAKE then
    match w.player.p with
    | none => Except.error Fault.null_pilot
    | some p =>
      if p.nav_hyperspace = -1 then
        Except.ok (player_autonavAbort (some "Target changed to current system") w)
      else if pplayer.fuel < E.HYPERSPACE_FUEL then
        Except.ok (player_autonavAbort (some "Not enough fuel for autonav to continue") w)
      else player_autonav E w
  else player_autonav E w

end Ops


/-! ## Worlds reached by the functions -/

/-- The world left by an abort that goes through: flag cleared, `player_acc` at 0, and
the calls of lines 99-116 appended to the trace. -/
def aborted {K : Type} [LinearOrderedField K] (reason : Option String) (p : Pilot K)
    (w : World K) : World K :=
  { w with
    player := { w.player with flag_autonav := false }
    player_acc := 0
    trace := w.trace ++
      [Call.player_message (msg_aborted reason), Call.player_accelOver] ++
      (if w.dt_mod ≠ 1 then [Call.pause_compressEnd] else []) ++
      (if p.hyp_prep = true then
        [Call.pilot_hyperspaceAbort, Call.player_message msg_hyp_abort]
      else []) }

/-- The world after the turn request and the thrust gating of `player_autonavApproach`
(lines 174-180). -/
def approach_gated {K : Type} [LinearOrderedField K] (E : Env K) (p : Pilot K)
    (pos : Vector2d K) (w : World K) : World K :=
  thrust_gate E (E.pilot_face p (E.vect_angle p.solid.pos pos))
    (w.call (Call.pilot_face (E.vect_angle p.solid.pos pos)))

/-- The world after the turn request and the thrust gating of `player_autonavBrake`
(lines 212-218). -/
def brake_gated {K : Type} [LinearOrderedField K] (E : Env K) (p : Pilot K)
    (w : World K) : World K :=
  thrust_gate E (E.pilot_face p (VANGLE p.solid.vel + E.M_PI))
    (w.call (Call.pilot_face (VANGLE p.solid.vel + E.M_PI)))

/-! ## Sample data for evaluating the embedding -/

section Demo

variable (K : Type) [LinearOrderedField K]

/-- A concrete environment: jump cost 100, direction tolerance 1/10, speed tolerance 5.
The pilot faces bearing 0, so the facing error is the bearing asked for; targets are
taken on the positive x axis, where the bearing is 0 and the modulus of a vector is the
sum of the absolute values of its coordinates. -/
def demoEnv : Env K :=
  { HYPERSPACE_FUEL := 100
    MIN_DIR_ERR := 1 / 10
    MIN_VEL_ERR := 5
    M_PI := 22 / 7
    MOD := fun x y => |x| + |y|
    ANGLE := fun _ _ => 0
    vect_angle := fun _ _ => 0
    pilot_face := fun _ dir => dir
    space_canHyperspace := fun _ _ => false }

/-- A pilot at the origin moving along the x axis at speed 30, with exactly the fuel of
one jump and the first jump point selected. -/
def demoPilot : Pilot K :=
  { solid := { mass := 10, pos := ⟨0, 0, 0, 0⟩, vel := ⟨30, 0, 30, 0⟩ }
    speed := 200
    thrust := 500
    turn := 90
    fuel := 100
    lockons := 0
    nav_hyperspace := 0
    manual_control := false
    hyperspace := false
    hyp_prep := false }

/-- A world with autonav off whose mode still holds `AUTONAV_POS_APPROACH` from an earlier
position session; the system has one jump point at (1000, 0). -/
def demoWorld : World K :=
  { player :=
      { p := some (demoPilot K)
        flag_autonav := false
        autonav := AUTONAV_POS_APPROACH
        autonav_pos := ⟨0, 0, 0, 0⟩ }
    player_acc := 0
    dt_mod := 1
    cur_system := { jumps := [⟨⟨1000, 0, 1000, 0⟩⟩] }
    trace := [] }

end Demo

/-- The world `demoWorld` with another pilot behind `player.p`. -/
def demoWorldWith {K : Type} [LinearOrderedField K] (p : Pilot K) : World K :=
  { demoWorld K with player := { (demoWorld K).player with p := some p } }

/-- The world `demoWorld` in the middle of a jump session: flag set, mode
`AUTONAV_JUMP_APPROACH`, time compression at 2, another pilot behind `player.p`. -/
def demoJumpWorld {K : Type} [LinearOrderedField K] (p : Pilot K) : World K :=
  { demoWorld K with
    player := { (demoWorld K).player with
      p := some p, flag_autonav := true, autonav := AUTONAV_JUMP_APPROACH }
    dt_mod := 2 }

/-- The environment `demoEnv` with every target at bearing 1, so that the sample pilot
is off heading by 1, beyond the tolerance 1/10. -/
def demoOffEnv (K : Type) [LinearOrderedField K] : Env K :=
  { demoEnv K with vect_angle := fun _ _ => 1 }

/-- The sample pilot at rest. -/
def demoStoppedPilot (K : Type) [LinearOrderedField K] : Pilot K :=
  { demoPilot K with solid := { (demoPilot K).solid with vel := ⟨0, 0, 0, 0⟩ } }

/-- The calls made by an abort that goes through, in order. -/
def abort_calls {K : Type} [LinearOrderedField K] (reason : Option String) (p : Pilot K)
    (w : World K) : List (Call K) :=
  [Call.player_message (msg_aborted reason), Call.player_accelOver] ++
    (if w.dt_mod ≠ 1 then [Call.pause_compressEnd] else []) ++
    (if p.hyp_prep = true then
      [Call.pilot_hyperspaceAbort, Call.player_message msg_hyp_abort]
    else [])

/-- The world `demoWorld` in the middle of a position session towards (1000, 0): flag
set, mode `AUTONAV_POS_APPROACH`, another pilot behind `player.p`. -/
def demoPosWorld {K : Type} [LinearOrderedField K] (p : Pilot K) : World K :=
  { demoWorld K with
    player := { (demoWorld K).player with
      p := some p, flag_autonav := true, autonav_pos := ⟨1000, 0, 1000, 0⟩ } }

/-- The environment `demoEnv` with the jump always allowed by `space_canHyperspace`. -/
def demoCanJumpEnv (K : Type) [LinearOrderedField K] : Env K :=
  { demoEnv K with space_canHyperspace := fun _ _ => true }

/-- The world `demoJumpWorld` in mode `AUTONAV_JUMP_BRAKE`. -/
def demoBrakeWorld {K : Type} [LinearOrderedField K] (p : Pilot K) : World K :=
  set_autonav AUTONAV_JUMP_BRAKE (demoJumpWorld p)

/-- The sample pilot with an empty tank and no jump target. -/
def demoDryPilot (K : Type) [LinearOrderedField K] : Pilot K :=
  { demoPilot K with fuel := 0, nav_hyperspace := -1 }

/-- A position session of `demoDryPilot` towards the point (50, 0). -/
def demoNearPosWorld (K : Type) [LinearOrderedField K] : World K :=
  { demoWorld K with
    player := { (demoWorld K).player with
      p := some (demoDryPilot K), flag_autonav := true, autonav_pos := ⟨50, 0, 50, 0⟩ } }

/-- The sample pilot with jump index 5 selected, beyond the single jump point of the
sample system. -/
def demoStalePilot (K : Type) [LinearOrderedField K] : Pilot K :=
  { demoPilot K with nav_hyperspace := 5 }

/-- The sample pilot at rest with top speed -1. -/
def demoNegSpeedPilot (K : Type) [LinearOrderedField K] : Pilot K :=
  { demoStoppedPilot K with speed := -1 }

/-! ## Starting a session -/

/-- C1: `player_autonavStart` is gated by its preconditions.  Under manual control or
with no jump target (`nav_hyperspace = -1`) the world is returned unchanged; otherwise
with `fuel < HYPERSPACE_FUEL` the only change is one "not enough fuel" message; otherwise
(`fuel ≥ HYPERSPACE_FUEL`, equality included) the autonav flag is set, the mode is
`AUTONAV_JUMP_APPROACH` and the "initialized" message is emitted. -/
theorem player_autonavStart_gated {K : Type} [LinearOrderedField K]
    (E : Env K) (w : World K) (p : Pilot K) (hp : w.player.p = some p) :
    ((p.manual_control = true ∨ p.nav_hyperspace = -1) →
      player_autonavStart E w = Except.ok w) ∧
    (p.manual_control = false → p.nav_hyperspace ≠ -1 → p.fuel < E.HYPERSPACE_FUEL →
      player_autonavStart E w =
        Except.ok { w with trace := w.trace ++ [Call.player_message msg_no_fuel] }) ∧
    (p.manual_control = false → p.nav_hyperspace ≠ -1 → E.HYPERSPACE_FUEL ≤ p.fuel →
      player_autonavStart E w =
        Except.ok
          { w with
            player := { w.player with
              flag_autonav := true, autonav := AUTONAV_JUMP_APPROACH }
            trace := w.trace ++ [Call.player_message msg_initialized] }) := by
  refine ⟨?_, ?_, ?_⟩
  · rintro (h | h) <;> simp [player_autonavStart, hp, h]
  · intro hm hn hf
    simp [player_autonavStart, hp, hm, hn, hf, player_message, World.call]
  · intro hm hn hf
    have hf' : ¬ p.fuel < E.HYPERSPACE_FUEL := not_lt.mpr hf
    simp [player_autonavStart, hp, hm, hn, hf', player_message, World.call,
      player_setFlag_AUTONAV, set_autonav]

/-- Witness for C1, one world per branch: manual control, no target, fuel 99 < 100, and
fuel exactly 100. -/
theorem player_autonavStart_gated_witness :
    player_autonavStart (demoEnv ℚ) (demoWorldWith { (demoPilot ℚ) with manual_control := true }) =
      Except.ok (demoWorldWith { (demoPilot ℚ) with manual_control := true }) ∧
    player_autonavStart (demoEnv ℚ) (demoWorldWith { (demoPilot ℚ) with nav_hyperspace := -1 }) =
      Except.ok (demoWorldWith { (demoPilot ℚ) with nav_hyperspace := -1 }) ∧
    player_autonavStart (demoEnv ℚ) (demoWorldWith { (demoPilot ℚ) with fuel := 99 }) =
      Except.ok { demoWorldWith { (demoPilot ℚ) with fuel := 99 } with
        trace := [Call.player_message msg_no_fuel] } ∧
    player_autonavStart (demoEnv ℚ) (demoWorld ℚ) =
      Except.ok
        { (demoWorld ℚ) with
          player := { (demoWorld ℚ).player with
            flag_autonav := true, autonav := AUTONAV_JUMP_APPROACH }
          trace := [Call.player_message msg_initialized] } :=
  ⟨(player_autonavStart_gated (demoEnv ℚ) _ { (demoPilot ℚ) with manual_control := true } rfl).1
      (Or.inl rfl),
    (player_autonavStart_gated (demoEnv ℚ) _ { (demoPilot ℚ) with nav_hyperspace := -1 } rfl).1
      (Or.inr rfl),
    (player_autonavStart_gated (demoEnv ℚ) _ { (demoPilot ℚ) with fuel := 99 } rfl).2.1
      rfl (by decide) (by norm_num [demoEnv]),
    (player_autonavStart_gated (demoEnv ℚ) (demoWorld ℚ) (demoPilot ℚ) rfl).2.2
      rfl (by decide) (by norm_num [demoEnv, demoPilot])⟩

/-- C2: evaluation of both start-for-jump entry points on `demoWorld`, whose mode is still
`AUTONAV_POS_APPROACH`, with a jump target selected and fuel equal to the jump cost.
`player_autonavStart` sets the flag and overwrites the mode with `AUTONAV_JUMP_APPROACH`;
`player_autonavStartWindow` sets the flag and leaves the mode `AUTONAV_POS_APPROACH`. -/
theorem player_autonavStartWindow_keeps_mode :
    player_autonavStart (demoEnv ℚ) (demoWorld ℚ) =
      Except.ok
        { (demoWorld ℚ) with
          player := { (demoWorld ℚ).player with
            flag_autonav := true, autonav := AUTONAV_JUMP_APPROACH }
          trace := [Call.player_message msg_initialized] } ∧
    player_autonavStartWindow (demoEnv ℚ) 7 (demoWorld ℚ) =
      Except.ok
        { (demoWorld ℚ) with
          player := { (demoWorld ℚ).player with
            flag_autonav := true, autonav := AUTONAV_POS_APPROACH }
          trace := [Call.player_message msg_initialized, Call.window_destroy 7] } := by
  constructor
  · simp [player_autonavStart, demoWorld, demoPilot, demoEnv, player_message, World.call,
      player_setFlag_AUTONAV, set_autonav]
  · simp [player_autonavStartWindow, demoWorld, demoPilot, demoEnv, player_message,
      World.call, player_setFlag_AUTONAV]

/-- C3: `player_autonavPos` has no precondition.  For every point and every world
(whatever the pilot, its fuel, its jump target and the previous mode) the flag is set
afterwards, the mode is `AUTONAV_POS_APPROACH` and `autonav_pos` holds the point; one
"initialized" message is emitted and the pilot is not touched. -/
theorem player_autonavPos_sets_session {K : Type} (E : Env K) (x y : K) (w : World K) :
    (player_autonavPos E x y w).player.flag_autonav = true ∧
    (player_autonavPos E x y w).player.autonav = AUTONAV_POS_APPROACH ∧
    (player_autonavPos E x y w).player.autonav_pos = vect_cset E x y ∧
    (player_autonavPos E x y w).player.autonav_pos.x = x ∧
    (player_autonavPos E x y w).player.autonav_pos.y = y ∧
    (player_autonavPos E x y w).trace = w.trace ++ [Call.player_message msg_initialized] ∧
    (player_autonavPos E x y w).player.p = w.player.p :=
  ⟨rfl, rfl, rfl, rfl, rfl, rfl, rfl⟩

/-! ## Aborting a session -/

/-- Unfolding of `player_autonavAbort` on a running session outside hyperspace. -/
theorem player_autonavAbort_eq_aborted {K : Type} [LinearOrderedField K]
    (reason : Option String) (w : World K) (p : Pilot K)
    (hp : w.player.p = some p) (hh : p.hyperspace = false)
    (hf : w.player.flag_autonav = true) :
    player_autonavAbort reason w = aborted reason p w := by
  by_cases h1 : w.dt_mod = 1 <;> by_cases h2 : p.hyp_prep = true <;>
    simp [player_autonavAbort, aborted, hp, hh, hf, h1, h2, player_message, World.call,
      player_rmFlag_AUTONAV, player_accelOver]

/-- C4: an abort during the hyperspace jump is dropped.  When the pilot has
`PILOT_HYPERSPACE` set, `player_autonavAbort` returns the world as it was, for every
reason: no field changes and nothing is added to the trace. -/
theorem player_autonavAbort_hyperspace {K : Type} [LinearOrderedField K]
    (reason : Option String) (w : World K) (p : Pilot K)
    (hp : w.player.p = some p) (hh : p.hyperspace = true) :
    player_autonavAbort reason w = w := by
  simp [player_autonavAbort, hp, hh]

/-- Witness for C4: a running jump session whose pilot is in hyperspace and preparing. -/
theorem player_autonavAbort_hyperspace_witness :
    player_autonavAbort (some "Missile Lockon Detected")
        (demoJumpWorld { (demoPilot ℚ) with hyperspace := true, hyp_prep := true }) =
      demoJumpWorld { (demoPilot ℚ) with hyperspace := true, hyp_prep := true } :=
  player_autonavAbort_hyperspace _ _ { (demoPilot ℚ) with hyperspace := true, hyp_prep := true }
    rfl rfl

/-- C5: abort on an inactive session is a no-op, and abort is idempotent.  When the
autonav flag is clear `player_autonavAbort` returns the world as it was (nothing added to
the trace); and from any world a second abort, with any reason, changes nothing the
first one left. -/
theorem player_autonavAbort_idempotent {K : Type} [LinearOrderedField K]
    (w : World K) :
    (w.player.flag_autonav = false → ∀ reason, player_autonavAbort reason w = w) ∧
    ∀ r1 r2, player_autonavAbort r2 (player_autonavAbort r1 w) =
      player_autonavAbort r1 w := by
  have key : ∀ (v : World K), v.player.flag_autonav = false →
      ∀ reason, player_autonavAbort reason v = v := by
    intro v hv reason
    unfold player_autonavAbort
    cases hq : v.player.p with
    | none => rfl
    | some q => simp [hv]
  refine ⟨key w, ?_⟩
  intro r1 r2
  cases hq : w.player.p with
  | none => simp [player_autonavAbort, hq]
  | some q =>
    by_cases hh : q.hyperspace = true
    · simp [player_autonavAbort, hq, hh]
    · by_cases hf : w.player.flag_autonav = true
      · apply key
        by_cases h1 : w.dt_mod = 1 <;> by_cases h2 : q.hyp_prep = true <;>
          simp [player_autonavAbort, hq, hh, hf, h1, h2, player_message, World.call,
            player_rmFlag_AUTONAV, player_accelOver]
      · simp [player_autonavAbort, hq, hh, hf]

/-- Witness for C5 on `demoWorld`, whose flag is clear. -/
theorem player_autonavAbort_idempotent_witness :
    player_autonavAbort none (demoWorld ℚ) = (demoWorld ℚ) :=
  (player_autonavAbort_idempotent (demoWorld ℚ)).1 rfl none

/-- C6: effect of an abort that is not suppressed.  With the flag set and the pilot not
in hyperspace, `player_autonavAbort` clears the flag, leaves `player_acc` at 0 and adds to
the trace, in this order: the abort message (with the reason when there is one), the
`player_accelOver` call, `pause_compressEnd` exactly when `dt_mod ≠ 1`, and
`pilot_hyperspaceAbort` followed by the hyperspace notice exactly when the pilot has
`PILOT_HYP_PREP`.  Nothing else changes. -/
theorem player_autonavAbort_effect {K : Type} [LinearOrderedField K]
    (reason : Option String) (w : World K) (p : Pilot K)
    (hp : w.player.p = some p) (hh : p.hyperspace = false)
    (hf : w.player.flag_autonav = true) :
    player_autonavAbort reason w =
      { w with
        player := { w.player with flag_autonav := false }
        player_acc := 0
        trace := w.trace ++
          [Call.player_message (msg_aborted reason), Call.player_accelOver] ++
          (if w.dt_mod ≠ 1 then [Call.pause_compressEnd] else []) ++
          (if p.hyp_prep = true then
            [Call.pilot_hyperspaceAbort, Call.player_message msg_hyp_abort]
          else []) } ∧
    (∀ r, msg_aborted (some r) = "\x1brAutonav aborted: " ++ r ++ "!") ∧
    msg_aborted none = "\x1brAutonav aborted!" := by
  exact ⟨player_autonavAbort_eq_aborted reason w p hp hh hf, fun _ => rfl, rfl⟩

/-- Witness for C6: a jump session under time compression with hyperspace being
prepared; all four calls appear. -/
theorem player_autonavAbort_effect_witness :
    player_autonavAbort (some "Missile Lockon Detected")
        (demoJumpWorld { (demoPilot ℚ) with hyp_prep := true }) =
      { demoJumpWorld { (demoPilot ℚ) with hyp_prep := true } with
        player := { (demoJumpWorld { (demoPilot ℚ) with hyp_prep := true }).player with
          flag_autonav := false }
        player_acc := 0
        trace :=
          [Call.player_message "\x1brAutonav aborted: Missile Lockon Detected!",
            Call.player_accelOver, Call.pause_compressEnd, Call.pilot_hyperspaceAbort,
            Call.player_message msg_hyp_abort] } := by
  have h := (player_autonavAbort_effect (some "Missile Lockon Detected")
    (demoJumpWorld { (demoPilot ℚ) with hyp_prep := true })
    { (demoPilot ℚ) with hyp_prep := true } rfl rfl rfl).1
  rw [h]
  simp [demoJumpWorld, demoWorld, msg_aborted]

/-! ## The kinematic predictor -/

/-- The braking distance is never negative for a pilot with positive thrust, mass and
turn rate, non-negative top speed and non-negative velocity modulus. -/
theorem approach_dist_nonneg {K : Type} [LinearOrderedField K] (p : Pilot K)
    (hthrust : 0 < p.thrust) (hmass : 0 < p.solid.mass) (hturn : 0 < p.turn)
    (hspeed : 0 ≤ p.speed) (hvel : 0 ≤ VMOD p.solid.vel) :
    0 ≤ approach_dist p := by
  have ha : 0 < p.thrust / p.solid.mass := div_pos hthrust hmass
  have hm0 : 0 ≤ min (1.5 * p.speed) (VMOD p.solid.vel) :=
    le_min (by positivity) hvel
  have hc0 : 0 ≤ min p.speed (VMOD p.solid.vel) := le_min hspeed hvel
  have hmc : min (1.5 * p.speed) (VMOD p.solid.vel) ≤
      1.5 * min p.speed (VMOD p.solid.vel) := by
    rcases le_total p.speed (VMOD p.solid.vel) with h | h
    · rw [min_eq_left h]
      exact min_le_left _ _
    · rw [min_eq_right h]
      refine le_trans (min_le_right _ _) ?_
      norm_num
      linarith
  have ht : 0 ≤ approach_time p := div_nonneg hm0 ha.le
  have hat : p.thrust / p.solid.mass * approach_time p =
      min (1.5 * p.speed) (VMOD p.solid.vel) := by
    unfold approach_time
    field_simp
    ring
  have hpad : 0 ≤ approach_vel p * (1.1 * 180 / p.turn) :=
    mul_nonneg hc0 (div_nonneg (by norm_num) hturn.le)
  have hkey : approach_dist p =
      approach_time p * (approach_vel p - 0.5 * min (1.5 * p.speed) (VMOD p.solid.vel)) +
        approach_vel p * (1.1 * 180 / p.turn) := by
    unfold approach_dist
    rw [← hat]
    ring
  rw [hkey]
  have hhalf : 0 ≤ approach_vel p - 0.5 * min (1.5 * p.speed) (VMOD p.solid.vel) := by
    unfold approach_vel
    generalize min (1.5 * p.speed) (VMOD p.solid.vel) = m at hmc hm0
    generalize min p.speed (VMOD p.solid.vel) = c at hmc hc0
    norm_num at hmc ⊢
    linarith
  exact add_nonneg (mul_nonneg ht hhalf) hpad

/-! ## Unfolding the actuators -/

/-- With a pilot present `player_autonavApproach` always returns: 1 and thrust off when
the squared braking distance exceeds the squared distance, 0 otherwise. -/
theorem player_autonavApproach_eq {K : Type} [LinearOrderedField K] (E : Env K)
    (pos : Vector2d K) (w : World K) (p : Pilot K) (hp : w.player.p = some p) :
    player_autonavApproach E pos w =
      if approach_dist p * approach_dist p > vect_dist2 pos p.solid.pos then
        Except.ok (1, player_accelOver (approach_gated E p pos w))
      else Except.ok (0, approach_gated E p pos w) := by
  simp only [player_autonavApproach, hp, approach_gated]

/-- With a pilot present `player_autonavBrake` always returns: 1 and thrust off when the
velocity modulus is below `MIN_VEL_ERR`, 0 otherwise. -/
theorem player_autonavBrake_eq {K : Type} [LinearOrderedField K] (E : Env K)
    (w : World K) (p : Pilot K) (hp : w.player.p = some p) :
    player_autonavBrake E w =
      if VMOD p.solid.vel < E.MIN_VEL_ERR then
        Except.ok (1, player_accelOver (brake_gated E p w))
      else Except.ok (0, brake_gated E p w) := by
  simp only [player_autonavBrake, hp, brake_gated]

/-- Off heading, the gating leaves thrust off and issues at most a `player_accelOver`. -/
theorem thrust_gate_off {K : Type} [LinearOrderedField K] (E : Env K) (d : K)
    (w : World K) (hd : E.MIN_DIR_ERR ≤ |d|)
    (hacc : w.player_acc = 0 ∨ w.player_acc = 1) :
    (thrust_gate E d w).player_acc = 0 ∧
    ∃ calls, (thrust_gate E d w).trace = w.trace ++ calls ∧
      ∀ c ∈ calls, c = Call.player_accelOver := by
  have hd' : ¬ |d| < E.MIN_DIR_ERR := not_lt.mpr hd
  rcases hacc with h | h
  · refine ⟨?_, [], ?_, ?_⟩
    · simp [thrust_gate, hd', h]
    · simp [thrust_gate, hd', h]
    · simp
  · refine ⟨?_, [Call.player_accelOver], ?_, ?_⟩
    · simp [thrust_gate, hd', h, player_accelOver]
    · simp [thrust_gate, hd', h, player_accelOver, World.call]
    · simp

/-! ## The actuators -/

/-- C7: braking-trigger symmetry over the reals.  For a pilot with positive thrust, mass
and turn rate, non-negative top speed and a non-negative velocity modulus `|vel|`, and
for any target, `player_autonavApproach` returns, and it returns 1 exactly when the
braking distance `closingSpeed * (timeToStop + 1.1 * 180 / turn) - 0.5 * a *
timeToStop ^ 2` (with `a = thrust / mass`, `timeToStop = min (1.5 * speed) |vel| / a`,
`closingSpeed = min speed |vel|`) is greater than the Euclidean distance to the target;
otherwise it returns 0. -/
theorem player_autonavApproach_braking_trigger (E : Env ℝ) (w : World ℝ) (p : Pilot ℝ)
    (pos : Vector2d ℝ) (hp : w.player.p = some p)
    (hthrust : 0 < p.thrust) (hmass : 0 < p.solid.mass) (hturn : 0 < p.turn)
    (hspeed : 0 ≤ p.speed) (hvel : 0 ≤ VMOD p.solid.vel) :
    ∃ r w', player_autonavApproach E pos w = Except.ok (r, w') ∧ (r = 1 ∨ r = 0) ∧
      (r = 1 ↔
        Real.sqrt (vect_dist2 pos p.solid.pos) <
          min p.speed (VMOD p.solid.vel) *
              (min (1.5 * p.speed) (VMOD p.solid.vel) / (p.thrust / p.solid.mass) +
                1.1 * 180 / p.turn) -
            0.5 * (p.thrust / p.solid.mass) *
              (min (1.5 * p.speed) (VMOD p.solid.vel) / (p.thrust / p.solid.mass)) ^ 2) := by
  have hd : 0 ≤ approach_dist p := approach_dist_nonneg p hthrust hmass hturn hspeed hvel
  have hd2 : 0 ≤ vect_dist2 pos p.solid.pos := by
    unfold vect_dist2
    exact add_nonneg (mul_self_nonneg _) (mul_self_nonneg _)
  have heq : min p.speed (VMOD p.solid.vel) *
              (min (1.5 * p.speed) (VMOD p.solid.vel) / (p.thrust / p.solid.mass) +
                1.1 * 180 / p.turn) -
            0.5 * (p.thrust / p.solid.mass) *
              (min (1.5 * p.speed) (VMOD p.solid.vel) / (p.thrust / p.solid.mass)) ^ 2 =
      approach_dist p := by
    unfold approach_dist approach_time approach_vel
    ring
  have hiff : Real.sqrt (vect_dist2 pos p.solid.pos) < approach_dist p ↔
      approach_dist p * approach_dist p > vect_dist2 pos p.solid.pos := by
    rw [Real.sqrt_lt hd2 hd, sq]
  rw [heq, hiff, player_autonavApproach_eq E pos w p hp]
  by_cases h : approach_dist p * approach_dist p > vect_dist2 pos p.solid.pos
  · rw [if_pos h]
    exact ⟨1, _, rfl, Or.inl rfl, by simp [h]⟩
  · rw [if_neg h]
    exact ⟨0, _, rfl, Or.inr rfl, by simp [h]⟩

/-- Witness for C7: the sample pilot (thrust 500, mass 10, turn 90, top speed 200,
speed 30) has braking distance 75; against the target (1000, 0), at distance 1000, the
approach returns 0. -/
theorem player_autonavApproach_braking_trigger_witness :
    ∃ w', player_autonavApproach (demoEnv ℝ) ⟨1000, 0, 1000, 0⟩ (demoWorld ℝ) =
      Except.ok (0, w') := by
  obtain ⟨r, w', h, hr, hiff⟩ :=
    player_autonavApproach_braking_trigger (demoEnv ℝ) (demoWorld ℝ) (demoPilot ℝ)
      ⟨1000, 0, 1000, 0⟩ rfl (by norm_num [demoPilot]) (by norm_num [demoPilot])
      (by norm_num [demoPilot]) (by norm_num [demoPilot]) (by norm_num [demoPilot, VMOD])
  rcases hr with hr | hr
  · exfalso
    have hlt := hiff.mp hr
    have hsq : (1000 : ℝ) ≤
        Real.sqrt (vect_dist2 ⟨1000, 0, 1000, 0⟩ (demoPilot ℝ).solid.pos) := by
      apply Real.le_sqrt_of_sq_le
      norm_num [vect_dist2, demoPilot]
    have hbd : min (demoPilot ℝ).speed (VMOD (demoPilot ℝ).solid.vel) *
              (min (1.5 * (demoPilot ℝ).speed) (VMOD (demoPilot ℝ).solid.vel) /
                  ((demoPilot ℝ).thrust / (demoPilot ℝ).solid.mass) +
                1.1 * 180 / (demoPilot ℝ).turn) -
            0.5 * ((demoPilot ℝ).thrust / (demoPilot ℝ).solid.mass) *
              (min (1.5 * (demoPilot ℝ).speed) (VMOD (demoPilot ℝ).solid.vel) /
                ((demoPilot ℝ).thrust / (demoPilot ℝ).solid.mass)) ^ 2 = 75 := by
      norm_num [demoPilot, VMOD]
    rw [hbd] at hlt
    linarith
  · subst hr
    exact ⟨w', h⟩

/-- C8: thrust gating of both actuators.  When the facing error returned by
`pilot_face` has absolute value at least `MIN_DIR_ERR` and `player_acc` is 0 or 1 on
entry, `player_autonavApproach` and `player_autonavBrake` return, make no `player_accel`
call at all (so no `player_accel(1)`), and leave `player_acc` at 0. -/
theorem actuators_thrust_gated {K : Type} [LinearOrderedField K] (E : Env K)
    (w : World K) (p : Pilot K) (pos : Vector2d K) (hp : w.player.p = some p)
    (hacc : w.player_acc = 0 ∨ w.player_acc = 1) :
    (E.MIN_DIR_ERR ≤ |E.pilot_face p (E.vect_angle p.solid.pos pos)| →
      ∃ r w' calls, player_autonavApproach E pos w = Except.ok (r, w') ∧
        w'.trace = w.trace ++ calls ∧ (∀ acc, Call.player_accel acc ∉ calls) ∧
        w'.player_acc = 0) ∧
    (E.MIN_DIR_ERR ≤ |E.pilot_face p (VANGLE p.solid.vel + E.M_PI)| →
      ∃ r w' calls, player_autonavBrake E w = Except.ok (r, w') ∧
        w'.trace = w.trace ++ calls ∧ (∀ acc, Call.player_accel acc ∉ calls) ∧
        w'.player_acc = 0) := by
  constructor
  · intro hd
    obtain ⟨h0, cs, hcs, hall⟩ := thrust_gate_off E _
      (w.call (Call.pilot_face (E.vect_angle p.solid.pos pos))) hd hacc
    rw [player_autonavApproach_eq E pos w p hp]
    by_cases h : approach_dist p * approach_dist p > vect_dist2 pos p.solid.pos
    · rw [if_pos h]
      refine ⟨1, _, Call.pilot_face (E.vect_angle p.solid.pos pos) :: cs ++
        [Call.player_accelOver], rfl, ?_, ?_, rfl⟩
      · show (approach_gated E p pos w).trace ++ [Call.player_accelOver] = _
        unfold approach_gated
        rw [hcs]
        simp [World.call]
      · intro acc hmem
        simp only [List.cons_append, List.mem_cons, List.mem_append, List.not_mem_nil,
          reduceCtorEq, false_or, or_false] at hmem
        exact Call.noConfusion (hall _ hmem)
    · rw [if_neg h]
      refine ⟨0, _, Call.pilot_face (E.vect_angle p.solid.pos pos) :: cs, rfl, ?_, ?_, h0⟩
      · unfold approach_gated
        rw [hcs]
        simp [World.call]
      · intro acc hmem
        simp only [List.mem_cons, reduceCtorEq, false_or] at hmem
        exact Call.noConfusion (hall _ hmem)
  · intro hd
    obtain ⟨h0, cs, hcs, hall⟩ := thrust_gate_off E _
      (w.call (Call.pilot_face (VANGLE p.solid.vel + E.M_PI))) hd hacc
    rw [player_autonavBrake_eq E w p hp]
    by_cases h : VMOD p.solid.vel < E.MIN_VEL_ERR
    · rw [if_pos h]
      refine ⟨1, _, Call.pilot_face (VANGLE p.solid.vel + E.M_PI) :: cs ++
        [Call.player_accelOver], rfl, ?_, ?_, rfl⟩
      · show (brake_gated E p w).trace ++ [Call.player_accelOver] = _
        unfold brake_gated
        rw [hcs]
        simp [World.call]
      · intro acc hmem
        simp only [List.cons_append, List.mem_cons, List.mem_append, List.not_mem_nil,
          reduceCtorEq, false_or, or_false] at hmem
        exact Call.noConfusion (hall _ hmem)
    · rw [if_neg h]
      refine ⟨0, _, Call.pilot_face (VANGLE p.solid.vel + E.M_PI) :: cs, rfl, ?_, ?_, h0⟩
      · unfold brake_gated
        rw [hcs]
        simp [World.call]
      · intro acc hmem
        simp only [List.mem_cons, reduceCtorEq, false_or] at hmem
        exact Call.noConfusion (hall _ hmem)

/-- Witness for C8: the sample pilot with thrust on, off heading by 1 for the
approach (bearing 1) and by 22/7 for the brake (velocity bearing 0 plus `M_PI`). -/
theorem actuators_thrust_gated_witness :
    (∃ r w' calls,
      player_autonavApproach (demoOffEnv ℚ) ⟨1000, 0, 1000, 0⟩
          { demoWorld ℚ with player_acc := 1 } = Except.ok (r, w') ∧
        w'.trace = ({ demoWorld ℚ with player_acc := 1 } : World ℚ).trace ++ calls ∧
        (∀ acc, Call.player_accel acc ∉ calls) ∧ w'.player_acc = 0) ∧
    (∃ r w' calls,
      player_autonavBrake (demoOffEnv ℚ) { demoWorld ℚ with player_acc := 1 } =
          Except.ok (r, w') ∧
        w'.trace = ({ demoWorld ℚ with player_acc := 1 } : World ℚ).trace ++ calls ∧
        (∀ acc, Call.player_accel acc ∉ calls) ∧ w'.player_acc = 0) :=
  ⟨(actuators_thrust_gated (demoOffEnv ℚ) { demoWorld ℚ with player_acc := 1 }
      (demoPilot ℚ) ⟨1000, 0, 1000, 0⟩ rfl (Or.inr rfl)).1
      (by norm_num [demoOffEnv, demoEnv]),
    (actuators_thrust_gated (demoOffEnv ℚ) { demoWorld ℚ with player_acc := 1 }
      (demoPilot ℚ) ⟨1000, 0, 1000, 0⟩ rfl (Or.inr rfl)).2
      (by norm_num [demoOffEnv, demoEnv, demoPilot, VANGLE, abs_of_pos])⟩

/-- C9: brake completion.  With a pilot present `player_autonavBrake` returns, and it
returns 1 exactly when the velocity modulus is below `MIN_VEL_ERR` (0 otherwise),
whatever the facing error is; when it returns 1, `player_acc` is 0 afterwards; and with
`MIN_VEL_ERR > 0` a pilot with velocity modulus 0 completes at once. -/
theorem player_autonavBrake_completion {K : Type} [LinearOrderedField K] (E : Env K)
    (w : World K) (p : Pilot K) (hp : w.player.p = some p) :
    ∃ r w', player_autonavBrake E w = Except.ok (r, w') ∧ (r = 1 ∨ r = 0) ∧
      (r = 1 ↔ VMOD p.solid.vel < E.MIN_VEL_ERR) ∧
      (r = 1 → w'.player_acc = 0) ∧
      (0 < E.MIN_VEL_ERR → VMOD p.solid.vel = 0 → r = 1) := by
  rw [player_autonavBrake_eq E w p hp]
  by_cases h : VMOD p.solid.vel < E.MIN_VEL_ERR
  · rw [if_pos h]
    exact ⟨1, _, rfl, Or.inl rfl, by simp [h], fun _ => rfl, fun _ _ => rfl⟩
  · rw [if_neg h]
    refine ⟨0, _, rfl, Or.inr rfl, by simp [h], fun h1 => absurd h1 (by decide), ?_⟩
    intro hpos hzero
    exact absurd (hzero ▸ hpos) h

/-- Witness for C9: the sample pilot at rest, with `MIN_VEL_ERR = 5`; the brake returns 1
and leaves `player_acc` at 0. -/
theorem player_autonavBrake_completion_witness :
    ∃ w', player_autonavBrake (demoEnv ℚ) (demoWorldWith (demoStoppedPilot ℚ)) =
        Except.ok (1, w') ∧ w'.player_acc = 0 := by
  obtain ⟨r, w', h, -, -, hacc, hzero⟩ :=
    player_autonavBrake_completion (demoEnv ℚ) (demoWorldWith (demoStoppedPilot ℚ))
      (demoStoppedPilot ℚ) rfl
  have hr : r = 1 := hzero (by norm_num [demoEnv]) rfl
  subst hr
  exact ⟨w', h, hacc rfl⟩

/-! ## The per-tick interrupts -/

/-- C10: lock-on interrupt.  With the flag set, the pilot not in hyperspace and
`pplayer->lockons > 0`, `player_thinkAutonav` returns the world left by
`player_autonavAbort("Missile Lockon Detected")`, whatever the mode (so in
`AUTONAV_JUMP_APPROACH` and `AUTONAV_JUMP_BRAKE`), the fuel and the jump target are: the
flag is cleared, `player_acc` is 0, the mode is unchanged, the abort message carries the
reason, and the calls made contain no `pilot_face`, no `player_accel` and no
`player_jump`. -/
theorem player_thinkAutonav_lockon {K : Type} [LinearOrderedField K] (E : Env K)
    (pplayer : Pilot K) (w : World K) (p : Pilot K) (hp : w.player.p = some p)
    (hh : p.hyperspace = false) (hf : w.player.flag_autonav = true)
    (hl : 0 < pplayer.lockons) :
    ∃ w' calls, player_thinkAutonav E pplayer w = Except.ok w' ∧
      w'.player.flag_autonav = false ∧ w'.player_acc = 0 ∧
      w'.player.autonav = w.player.autonav ∧
      w'.trace = w.trace ++ calls ∧
      calls.head? =
        some (Call.player_message "\x1brAutonav aborted: Missile Lockon Detected!") ∧
      (∀ c ∈ calls, (∀ d, c ≠ Call.pilot_face d) ∧ (∀ acc, c ≠ Call.player_accel acc) ∧
        c ≠ Call.player_jump) := by
  have hthink : player_thinkAutonav E pplayer w =
      Except.ok (aborted (some "Missile Lockon Detected") p w) := by
    simp only [player_thinkAutonav, gt_iff_lt, hl, if_true]
    rw [player_autonavAbort_eq_aborted _ w p hp hh hf]
  refine ⟨_, [Call.player_message (msg_aborted (some "Missile Lockon Detected")),
      Call.player_accelOver] ++
      (if w.dt_mod ≠ 1 then [Call.pause_compressEnd] else []) ++
      (if p.hyp_prep = true then
        [Call.pilot_hyperspaceAbort, Call.player_message msg_hyp_abort]
      else []), hthink, rfl, rfl, rfl, ?_, ?_, ?_⟩
  · simp [aborted]
  · simp [msg_aborted]
  · intro c hc
    have hcases : c = Call.player_message (msg_aborted (some "Missile Lockon Detected")) ∨
        c = Call.player_accelOver ∨ c = Call.pause_compressEnd ∨
        c = Call.pilot_hyperspaceAbort ∨ c = Call.player_message msg_hyp_abort := by
      by_cases h1 : w.dt_mod = 1 <;> by_cases h2 : p.hyp_prep = true <;>
        simp [h1, h2] at hc <;> tauto
    rcases hcases with h | h | h | h | h <;> subst h <;>
      exact ⟨fun _ => Call.noConfusion, fun _ => Call.noConfusion, Call.noConfusion⟩

/-- Witness for C10: a jump session of the sample pilot, with one lock-on reported. -/
theorem player_thinkAutonav_lockon_witness :
    ∃ w' calls,
      player_thinkAutonav (demoEnv ℚ) { demoPilot ℚ with lockons := 1 }
          (demoJumpWorld (demoPilot ℚ)) = Except.ok w' ∧
      w'.player.flag_autonav = false ∧ w'.player_acc = 0 ∧
      w'.player.autonav = (demoJumpWorld (demoPilot ℚ)).player.autonav ∧
      w'.trace = (demoJumpWorld (demoPilot ℚ)).trace ++ calls ∧
      calls.head? =
        some (Call.player_message "\x1brAutonav aborted: Missile Lockon Detected!") ∧
      (∀ c ∈ calls, (∀ d, c ≠ Call.pilot_face d) ∧ (∀ acc, c ≠ Call.player_accel acc) ∧
        c ≠ Call.player_jump) :=
  player_thinkAutonav_lockon (demoEnv ℚ) { demoPilot ℚ with lockons := 1 }
    (demoJumpWorld (demoPilot ℚ)) (demoPilot ℚ) rfl rfl rfl (by decide)

/-! ## Frames of the abort and of the actuators -/

/-- The trace of an abort that goes through is the old trace followed by `abort_calls`. -/
theorem aborted_trace {K : Type} [LinearOrderedField K] (reason : Option String)
    (p : Pilot K) (w : World K) :
    (aborted reason p w).trace = w.trace ++ abort_calls reason p w := by
  simp [aborted, abort_calls, List.append_assoc]

/-- An abort starts with its message and makes no turn, thrust or jump call. -/
theorem abort_calls_spec {K : Type} [LinearOrderedField K] (reason : Option String)
    (p : Pilot K) (w : World K) :
    (abort_calls reason p w).head? = some (Call.player_message (msg_aborted reason)) ∧
    ∀ c ∈ abort_calls reason p w, (∀ d, c ≠ Call.pilot_face d) ∧
      (∀ acc, c ≠ Call.player_accel acc) ∧ c ≠ Call.player_jump := by
  refine ⟨by simp [abort_calls], ?_⟩
  intro c hc
  have hcases : c = Call.player_message (msg_aborted reason) ∨
      c = Call.player_accelOver ∨ c = Call.pause_compressEnd ∨
      c = Call.pilot_hyperspaceAbort ∨ c = Call.player_message msg_hyp_abort := by
    unfold abort_calls at hc
    by_cases h1 : w.dt_mod = 1 <;> by_cases h2 : p.hyp_prep = true <;>
      simp [h1, h2] at hc <;> tauto
  rcases hcases with h | h | h | h | h <;> subst h <;>
    exact ⟨fun _ => Call.noConfusion, fun _ => Call.noConfusion, Call.noConfusion⟩

/-- The gating touches only `player_acc` and the trace, to which it adds at most one
call, `player_accel(1)` or `player_accelOver`. -/
theorem thrust_gate_frame {K : Type} [LinearOrderedField K] (E : Env K) (d : K)
    (w : World K) :
    (thrust_gate E d w).player = w.player ∧
    (thrust_gate E d w).cur_system = w.cur_system ∧
    (thrust_gate E d w).dt_mod = w.dt_mod ∧
    ∃ cs, (thrust_gate E d w).trace = w.trace ++ cs ∧
      ∀ c ∈ cs, c = Call.player_accel 1 ∨ c = Call.player_accelOver := by
  unfold thrust_gate
  by_cases h1 : |d| < E.MIN_DIR_ERR
  · by_cases h2 : w.player_acc < 1
    · rw [if_pos h1, if_pos h2]
      exact ⟨rfl, rfl, rfl, [Call.player_accel 1], rfl, by simp⟩
    · rw [if_pos h1, if_neg h2]
      exact ⟨rfl, rfl, rfl, [], by simp, by simp⟩
  · by_cases h2 : w.player_acc > 0
    · rw [if_neg h1, if_pos h2]
      exact ⟨rfl, rfl, rfl, [Call.player_accelOver], rfl, by simp⟩
    · rw [if_neg h1, if_neg h2]
      exact ⟨rfl, rfl, rfl, [], by simp, by simp⟩

/-- Frame of the first half of `player_autonavApproach`: one `pilot_face` towards the
target, then at most one thrust call; `player`, `cur_system` and `dt_mod` are kept. -/
theorem approach_gated_frame {K : Type} [LinearOrderedField K] (E : Env K) (p : Pilot K)
    (pos : Vector2d K) (w : World K) :
    (approach_gated E p pos w).player = w.player ∧
    (approach_gated E p pos w).cur_system = w.cur_system ∧
    (approach_gated E p pos w).dt_mod = w.dt_mod ∧
    ∃ cs, (approach_gated E p pos w).trace =
        w.trace ++ Call.pilot_face (E.vect_angle p.solid.pos pos) :: cs ∧
      ∀ c ∈ cs, c = Call.player_accel 1 ∨ c = Call.player_accelOver := by
  obtain ⟨h1, h2, h3, cs, h4, h5⟩ := thrust_gate_frame E
    (E.pilot_face p (E.vect_angle p.solid.pos pos))
    (w.call (Call.pilot_face (E.vect_angle p.solid.pos pos)))
  refine ⟨h1, h2, h3, cs, ?_, h5⟩
  unfold approach_gated
  rw [h4]
  simp [World.call]

/-- Frame of the first half of `player_autonavBrake`: one `pilot_face` against the
velocity, then at most one thrust call; `player`, `cur_system` and `dt_mod` are kept. -/
theorem brake_gated_frame {K : Type} [LinearOrderedField K] (E : Env K) (p : Pilot K)
    (w : World K) :
    (brake_gated E p w).player = w.player ∧
    (brake_gated E p w).cur_system = w.cur_system ∧
    (brake_gated E p w).dt_mod = w.dt_mod ∧
    ∃ cs, (brake_gated E p w).trace =
        w.trace ++ Call.pilot_face (VANGLE p.solid.vel + E.M_PI) :: cs ∧
      ∀ c ∈ cs, c = Call.player_accel 1 ∨ c = Call.player_accelOver := by
  obtain ⟨h1, h2, h3, cs, h4, h5⟩ := thrust_gate_frame E
    (E.pilot_face p (VANGLE p.solid.vel + E.M_PI))
    (w.call (Call.pilot_face (VANGLE p.solid.vel + E.M_PI)))
  refine ⟨h1, h2, h3, cs, ?_, h5⟩
  unfold brake_gated
  rw [h4]
  simp [World.call]

/-- With no lock-on and a mode other than the two jump modes, the tick is
`player_autonav`. -/
theorem player_thinkAutonav_pos_eq {K : Type} [LinearOrderedField K] (E : Env K)
    (pplayer : Pilot K) (w : World K) (hmode : w.player.autonav = AUTONAV_POS_APPROACH)
    (hl : pplayer.lockons ≤ 0) :
    player_thinkAutonav E pplayer w = player_autonav E w := by
  have hl' : ¬ pplayer.lockons > 0 := not_lt.mpr hl
  simp [player_thinkAutonav, hl', hmode]

/-- With no lock-on, a jump mode, a target selected and enough fuel, the tick is
`player_autonav`. -/
theorem player_thinkAutonav_jump_eq {K : Type} [LinearOrderedField K] (E : Env K)
    (pplayer : Pilot K) (w : World K) (p : Pilot K) (hp : w.player.p = some p)
    (hmode : w.player.autonav = AUTONAV_JUMP_APPROACH ∨
      w.player.autonav = AUTONAV_JUMP_BRAKE)
    (hl : pplayer.lockons ≤ 0) (hn : p.nav_hyperspace ≠ -1)
    (hfuel : E.HYPERSPACE_FUEL ≤ pplayer.fuel) :
    player_thinkAutonav E pplayer w = player_autonav E w := by
  have hl' : ¬ pplayer.lockons > 0 := not_lt.mpr hl
  have hfuel' : ¬ pplayer.fuel < E.HYPERSPACE_FUEL := not_lt.mpr hfuel
  simp [player_thinkAutonav, hl', hmode, hp, hn, hfuel']

/-- Unfolding of `player_autonav` in mode `AUTONAV_POS_APPROACH` with a pilot present. -/
theorem player_autonav_pos_eq {K : Type} [LinearOrderedField K] (E : Env K)
    (w : World K) (p : Pilot K) (hp : w.player.p = some p)
    (hmode : w.player.autonav = AUTONAV_POS_APPROACH) :
    player_autonav E w =
      if approach_dist p * approach_dist p > vect_dist2 w.player.autonav_pos p.solid.pos then
        Except.ok (player_message msg_arrived (player_rmFlag_AUTONAV
          (player_accelOver (approach_gated E p w.player.autonav_pos w))))
      else Except.ok (approach_gated E p w.player.autonav_pos w) := by
  unfold player_autonav
  rw [hmode]
  simp only []
  rw [player_autonavApproach_eq E _ w p hp]
  by_cases h : approach_dist p * approach_dist p >
      vect_dist2 w.player.autonav_pos p.solid.pos
  · simp [h]
  · simp [h]

/-! ## Interrupts and modes -/

/-- C11, counterexample: a position session of the sample pilot with one lock-on.  The
tick aborts: the flag is cleared and the calls made are the abort message and
`player_accelOver`, with no `pilot_face`.  From the same session with no lock-on the tick
keeps the flag and makes the calls of the approach actuator. -/
theorem player_thinkAutonav_pos_lockon_aborts :
    player_thinkAutonav (demoEnv ℚ) { demoPilot ℚ with lockons := 1 }
        (demoPosWorld { demoPilot ℚ with lockons := 1 }) =
      Except.ok
        { demoPosWorld { demoPilot ℚ with lockons := 1 } with
          player := { (demoPosWorld { demoPilot ℚ with lockons := 1 }).player with
            flag_autonav := false }
          player_acc := 0
          trace :=
            [Call.player_message "\x1brAutonav aborted: Missile Lockon Detected!",
              Call.player_accelOver] } ∧
    player_thinkAutonav (demoEnv ℚ) (demoPilot ℚ) (demoPosWorld (demoPilot ℚ)) =
      Except.ok
        { demoPosWorld (demoPilot ℚ) with
          player_acc := 1
          trace := [Call.pilot_face 0, Call.player_accel 1] } := by
  constructor
  · have hl : (0 : Int) < ({ demoPilot ℚ with lockons := 1 } : Pilot ℚ).lockons := by decide
    simp only [player_thinkAutonav, gt_iff_lt, hl, if_true]
    rw [player_autonavAbort_eq_aborted _ _ { demoPilot ℚ with lockons := 1 } rfl rfl rfl]
    simp [aborted, demoPosWorld, demoWorld, demoPilot, msg_aborted]
  · rw [player_thinkAutonav_pos_eq _ _ _ rfl (by decide),
      player_autonav_pos_eq _ _ (demoPilot ℚ) rfl rfl]
    have hd : ¬ approach_dist (demoPilot ℚ) * approach_dist (demoPilot ℚ) >
        vect_dist2 (demoPosWorld (demoPilot ℚ)).player.autonav_pos
          (demoPilot ℚ).solid.pos := by
      norm_num [approach_dist, approach_time, approach_vel, VMOD, vect_dist2, demoPilot,
        demoPosWorld, demoWorld]
    rw [if_neg hd]
    norm_num [approach_gated, thrust_gate, player_accel, World.call, demoEnv, demoPosWorld,
      demoWorld]

/-- C11 (amended): in mode `AUTONAV_POS_APPROACH` the target and fuel checks are skipped,
the lock-on check is not.  With `pplayer->lockons > 0` the tick is the abort with reason
"Missile Lockon Detected" and nothing else: on a running session outside hyperspace the
flag is cleared, `player_acc` is 0 and the calls made start with the abort message and
contain no `pilot_face`, `player_accel` or `player_jump`.  With no lock-on the tick is
`player_autonav`, for every fuel level and jump target: it runs the approach actuator
against `autonav_pos`. -/
theorem player_thinkAutonav_pos_interrupts {K : Type} [LinearOrderedField K] (E : Env K)
    (pplayer : Pilot K) (w : World K) (p : Pilot K) (hp : w.player.p = some p)
    (hmode : w.player.autonav = AUTONAV_POS_APPROACH) :
    (0 < pplayer.lockons →
      player_thinkAutonav E pplayer w =
        Except.ok (player_autonavAbort (some "Missile Lockon Detected") w)) ∧
    (0 < pplayer.lockons → p.hyperspace = false → w.player.flag_autonav = true →
      ∃ w', player_thinkAutonav E pplayer w = Except.ok w' ∧
        w'.player.flag_autonav = false ∧ w'.player_acc = 0 ∧
        w'.player.autonav = AUTONAV_POS_APPROACH ∧
        w'.trace = w.trace ++ abort_calls (some "Missile Lockon Detected") p w ∧
        (abort_calls (some "Missile Lockon Detected") p w).head? =
          some (Call.player_message "\x1brAutonav aborted: Missile Lockon Detected!") ∧
        ∀ c ∈ abort_calls (some "Missile Lockon Detected") p w,
          (∀ d, c ≠ Call.pilot_face d) ∧ (∀ acc, c ≠ Call.player_accel acc) ∧
            c ≠ Call.player_jump) ∧
    (pplayer.lockons ≤ 0 →
      player_thinkAutonav E pplayer w = player_autonav E w ∧
      ∃ r w1, player_autonavApproach E w.player.autonav_pos w = Except.ok (r, w1) ∧
        player_thinkAutonav E pplayer w =
          Except.ok (if r ≠ 0 then player_message msg_arrived (player_rmFlag_AUTONAV w1)
            else w1)) := by
  refine ⟨?_, ?_, ?_⟩
  · intro hl
    simp only [player_thinkAutonav, gt_iff_lt, hl, if_true]
  · intro hl hh hf
    refine ⟨aborted (some "Missile Lockon Detected") p w, ?_, rfl, rfl, hmode,
      aborted_trace _ p w, ?_, (abort_calls_spec _ p w).2⟩
    · simp only [player_thinkAutonav, gt_iff_lt, hl, if_true]
      rw [player_autonavAbort_eq_aborted _ w p hp hh hf]
    · rw [(abort_calls_spec _ p w).1]
      simp [msg_aborted]
  · intro hl
    refine ⟨player_thinkAutonav_pos_eq E pplayer w hmode hl, ?_⟩
    rw [player_thinkAutonav_pos_eq E pplayer w hmode hl, player_autonav_pos_eq E w p hp hmode,
      player_autonavApproach_eq E _ w p hp]
    by_cases h : approach_dist p * approach_dist p >
        vect_dist2 w.player.autonav_pos p.solid.pos
    · rw [if_pos h, if_pos h]
      exact ⟨1, _, rfl, by simp⟩
    · rw [if_neg h, if_neg h]
      exact ⟨0, _, rfl, by simp⟩

/-- Witness for C11 (amended): the position session of the sample pilot, with one lock-on
(abort) and with none (the tick is `player_autonav`). -/
theorem player_thinkAutonav_pos_interrupts_witness :
    player_thinkAutonav (demoEnv ℚ) { demoPilot ℚ with lockons := 1 }
        (demoPosWorld (demoPilot ℚ)) =
      Except.ok (player_autonavAbort (some "Missile Lockon Detected")
        (demoPosWorld (demoPilot ℚ))) ∧
    player_thinkAutonav (demoEnv ℚ) (demoPilot ℚ) (demoPosWorld (demoPilot ℚ)) =
      player_autonav (demoEnv ℚ) (demoPosWorld (demoPilot ℚ)) :=
  ⟨(player_thinkAutonav_pos_interrupts (demoEnv ℚ) { demoPilot ℚ with lockons := 1 }
      (demoPosWorld (demoPilot ℚ)) (demoPilot ℚ) rfl rfl).1 (by decide),
    ((player_thinkAutonav_pos_interrupts (demoEnv ℚ) (demoPilot ℚ)
      (demoPosWorld (demoPilot ℚ)) (demoPilot ℚ) rfl rfl).2.2 (by decide)).1⟩

/-- C12: target and fuel interrupts of a jump session.  On a running session (flag set)
outside hyperspace, in mode `AUTONAV_JUMP_APPROACH` or `AUTONAV_JUMP_BRAKE` and with no
lock-on: with `nav_hyperspace = -1` the tick aborts with "Target changed to current
system", whatever the fuel is; otherwise with `fuel < HYPERSPACE_FUEL` it aborts with
"Not enough fuel for autonav to continue"; otherwise, equality of fuel and cost
included, the tick is `player_autonav`.  Both aborts clear the flag, leave `player_acc`
at 0, keep the mode and make no `pilot_face`, `player_accel` or `player_jump` call. -/
theorem player_thinkAutonav_target_fuel {K : Type} [LinearOrderedField K] (E : Env K)
    (pplayer : Pilot K) (w : World K) (p : Pilot K) (hp : w.player.p = some p)
    (hh : p.hyperspace = false) (hf : w.player.flag_autonav = true)
    (hmode : w.player.autonav = AUTONAV_JUMP_APPROACH ∨
      w.player.autonav = AUTONAV_JUMP_BRAKE)
    (hl : pplayer.lockons ≤ 0) :
    (p.nav_hyperspace = -1 →
      player_thinkAutonav E pplayer w =
        Except.ok (aborted (some "Target changed to current system") p w)) ∧
    (p.nav_hyperspace ≠ -1 → pplayer.fuel < E.HYPERSPACE_FUEL →
      player_thinkAutonav E pplayer w =
        Except.ok (aborted (some "Not enough fuel for autonav to continue") p w)) ∧
    (p.nav_hyperspace ≠ -1 → E.HYPERSPACE_FUEL ≤ pplayer.fuel →
      player_thinkAutonav E pplayer w = player_autonav E w) ∧
    (∀ reason : String,
      (aborted (some reason) p w).player.flag_autonav = false ∧
      (aborted (some reason) p w).player_acc = 0 ∧
      (aborted (some reason) p w).player.autonav = w.player.autonav ∧
      (aborted (some reason) p w).trace = w.trace ++ abort_calls (some reason) p w ∧
      (abort_calls (some reason) p w).head? =
        some (Call.player_message ("\x1brAutonav aborted: " ++ reason ++ "!")) ∧
      ∀ c ∈ abort_calls (some reason) p w,
        (∀ d, c ≠ Call.pilot_face d) ∧ (∀ acc, c ≠ Call.player_accel acc) ∧
          c ≠ Call.player_jump) := by
  have hl' : ¬ pplayer.lockons > 0 := not_lt.mpr hl
  refine ⟨?_, ?_, ?_, ?_⟩
  · intro hn
    rw [← player_autonavAbort_eq_aborted _ w p hp hh hf]
    simp [player_thinkAutonav, hl', hmode, hp, hn]
  · intro hn hfuel
    rw [← player_autonavAbort_eq_aborted _ w p hp hh hf]
    simp [player_thinkAutonav, hl', hmode, hp, hn, hfuel]
  · intro hn hfuel
    exact player_thinkAutonav_jump_eq E pplayer w p hp hmode hl hn hfuel
  · intro reason
    exact ⟨rfl, rfl, rfl, aborted_trace _ p w, (abort_calls_spec _ p w).1,
      (abort_calls_spec _ p w).2⟩

/-- Witness for C12, one jump session per branch: no target and no fuel at once, fuel 99
below the cost 100, and fuel exactly 100. -/
theorem player_thinkAutonav_target_fuel_witness :
    player_thinkAutonav (demoEnv ℚ) { demoPilot ℚ with nav_hyperspace := -1, fuel := 0 }
        (demoJumpWorld { demoPilot ℚ with nav_hyperspace := -1, fuel := 0 }) =
      Except.ok (aborted (some "Target changed to current system")
        { demoPilot ℚ with nav_hyperspace := -1, fuel := 0 }
        (demoJumpWorld { demoPilot ℚ with nav_hyperspace := -1, fuel := 0 })) ∧
    player_thinkAutonav (demoEnv ℚ) { demoPilot ℚ with fuel := 99 }
        (demoJumpWorld { demoPilot ℚ with fuel := 99 }) =
      Except.ok (aborted (some "Not enough fuel for autonav to continue")
        { demoPilot ℚ with fuel := 99 } (demoJumpWorld { demoPilot ℚ with fuel := 99 })) ∧
    player_thinkAutonav (demoEnv ℚ) (demoPilot ℚ) (demoJumpWorld (demoPilot ℚ)) =
      player_autonav (demoEnv ℚ) (demoJumpWorld (demoPilot ℚ)) :=
  ⟨(player_thinkAutonav_target_fuel (demoEnv ℚ) _ _
      { demoPilot ℚ with nav_hyperspace := -1, fuel := 0 } rfl rfl rfl (Or.inl rfl)
      (by decide)).1 rfl,
    (player_thinkAutonav_target_fuel (demoEnv ℚ) _ _ { demoPilot ℚ with fuel := 99 }
      rfl rfl rfl (Or.inl rfl) (by decide)).2.1 (by decide) (by norm_num [demoEnv]),
    (player_thinkAutonav_target_fuel (demoEnv ℚ) _ _ (demoPilot ℚ)
      rfl rfl rfl (Or.inl rfl) (by decide)).2.2.1 (by decide)
      (by norm_num [demoEnv, demoPilot])⟩

/-! ## Steps of the state machine -/

/-- Unfolding of `player_autonav` in mode `AUTONAV_JUMP_APPROACH` with a pilot present
and the selected jump point in the list. -/
theorem player_autonav_jump_approach_eq {K : Type} [LinearOrderedField K] (E : Env K)
    (w : World K) (p : Pilot K) (jp : JumpPoint K) (hp : w.player.p = some p)
    (hmode : w.player.autonav = AUTONAV_JUMP_APPROACH)
    (hjp : jump_at w.cur_system p.nav_hyperspace = some jp) :
    player_autonav E w =
      if approach_dist p * approach_dist p > vect_dist2 jp.pos p.solid.pos then
        Except.ok (set_autonav AUTONAV_JUMP_BRAKE
          (player_accelOver (approach_gated E p jp.pos w)))
      else Except.ok (approach_gated E p jp.pos w) := by
  unfold player_autonav
  rw [hmode]
  simp only [hp, hjp]
  rw [player_autonavApproach_eq E _ w p hp]
  by_cases h : approach_dist p * approach_dist p > vect_dist2 jp.pos p.solid.pos
  · simp [h]
  · simp [h]

/-- Unfolding of `player_autonav` in mode `AUTONAV_JUMP_BRAKE` with a pilot present. -/
theorem player_autonav_jump_brake_eq {K : Type} [LinearOrderedField K] (E : Env K)
    (w : World K) (p : Pilot K) (hp : w.player.p = some p)
    (hmode : w.player.autonav = AUTONAV_JUMP_BRAKE) :
    player_autonav E w =
      if VMOD p.solid.vel < E.MIN_VEL_ERR then
        (if E.space_canHyperspace p w.cur_system = true then
          Except.ok ((player_accelOver (set_autonav AUTONAV_JUMP_APPROACH
            (player_accelOver (brake_gated E p w)))).call Call.player_jump)
        else Except.ok (set_autonav AUTONAV_JUMP_APPROACH
          (player_accelOver (brake_gated E p w))))
      else
        (if E.space_canHyperspace p w.cur_system = true then
          Except.ok ((player_accelOver (set_autonav AUTONAV_JUMP_APPROACH
            (brake_gated E p w))).call Call.player_jump)
        else Except.ok (brake_gated E p w)) := by
  obtain ⟨hpl, hsys, -, -⟩ := brake_gated_frame E p w
  unfold player_autonav
  rw [hmode]
  simp only []
  rw [player_autonavBrake_eq E w p hp]
  by_cases h : VMOD p.solid.vel < E.MIN_VEL_ERR
  · have h1 : (player_accelOver (brake_gated E p w)).player.p = some p := by
      show (brake_gated E p w).player.p = some p
      rw [hpl, hp]
    have h2 : (player_accelOver (brake_gated E p w)).cur_system = w.cur_system := hsys
    simp only [h, if_true, h1, h2]
    by_cases hc : E.space_canHyperspace p w.cur_system = true
    · simp [hc]
    · simp [hc]
  · have h1 : (brake_gated E p w).player.p = some p := by rw [hpl, hp]
    simp only [h, if_false, h1, hsys]
    by_cases hc : E.space_canHyperspace p w.cur_system = true
    · simp [hc]
    · simp [hc]

/-- A list of thrust calls holds no jump request. -/
theorem thrust_calls_no_jump {K : Type} [LinearOrderedField K] (cs : List (Call K))
    (hall : ∀ c ∈ cs, c = Call.player_accel 1 ∨ c = Call.player_accelOver) :
    Call.player_jump ∉ cs := by
  intro hm
  rcases hall _ hm with h | h <;> exact Call.noConfusion h

/-- C13: step of a jump session in mode `AUTONAV_JUMP_APPROACH`.  When no interrupt
fires (no lock-on, a target selected, enough fuel) and the selected jump point `jp` is in
the jump list, the tick returns the world `w1` left by `player_autonavApproach` on
`jp.pos`, with the mode set to `AUTONAV_JUMP_BRAKE` when the actuator returned 1 and
left at `AUTONAV_JUMP_APPROACH` when it returned 0; the flag is unchanged and no
`player_jump` call is made. -/
theorem player_thinkAutonav_jump_approach_step {K : Type} [LinearOrderedField K]
    (E : Env K) (pplayer : Pilot K) (w : World K) (p : Pilot K) (jp : JumpPoint K)
    (hp : w.player.p = some p) (hmode : w.player.autonav = AUTONAV_JUMP_APPROACH)
    (hl : pplayer.lockons ≤ 0) (hn : p.nav_hyperspace ≠ -1)
    (hfuel : E.HYPERSPACE_FUEL ≤ pplayer.fuel)
    (hjp : jump_at w.cur_system p.nav_hyperspace = some jp) :
    ∃ r w1 w' calls,
      player_autonavApproach E jp.pos w = Except.ok (r, w1) ∧
      player_thinkAutonav E pplayer w = Except.ok w' ∧
      (r = 1 ∨ r = 0) ∧
      w' = (if r = 1 then set_autonav AUTONAV_JUMP_BRAKE w1 else w1) ∧
      w'.player.autonav =
        (if r = 1 then AUTONAV_JUMP_BRAKE else AUTONAV_JUMP_APPROACH) ∧
      w'.player.flag_autonav = w.player.flag_autonav ∧
      w'.trace = w.trace ++ calls ∧ Call.player_jump ∉ calls := by
  obtain ⟨hpl, -, -, cs, htr, hall⟩ := approach_gated_frame E p jp.pos w
  have hnj := thrust_calls_no_jump cs hall
  rw [player_thinkAutonav_jump_eq E pplayer w p hp (Or.inl hmode) hl hn hfuel,
    player_autonav_jump_approach_eq E w p jp hp hmode hjp,
    player_autonavApproach_eq E _ w p hp]
  by_cases h : approach_dist p * approach_dist p > vect_dist2 jp.pos p.solid.pos
  · rw [if_pos h, if_pos h]
    refine ⟨1, _, _, Call.pilot_face (E.vect_angle p.solid.pos jp.pos) :: cs ++
      [Call.player_accelOver], rfl, rfl, Or.inl rfl, by simp, by simp [set_autonav], ?_, ?_, ?_⟩
    · show (approach_gated E p jp.pos w).player.flag_autonav = _
      rw [hpl]
    · show (approach_gated E p jp.pos w).trace ++ [Call.player_accelOver] = _
      rw [htr]
      simp
    · simp [hnj]
  · rw [if_neg h, if_neg h]
    refine ⟨0, _, _, Call.pilot_face (E.vect_angle p.solid.pos jp.pos) :: cs,
      rfl, rfl, Or.inr rfl, by simp, ?_, ?_, htr, ?_⟩
    · rw [hpl, hmode]
      simp
    · rw [hpl]
    · simp [hnj]

/-- Witness for C13: the jump session of the sample pilot, 1000 away from the jump point
with braking distance 75; the tick keeps `AUTONAV_JUMP_APPROACH`. -/
theorem player_thinkAutonav_jump_approach_step_witness :
    ∃ r w1 w' calls,
      player_autonavApproach (demoEnv ℚ) (⟨⟨1000, 0, 1000, 0⟩⟩ : JumpPoint ℚ).pos
        (demoJumpWorld (demoPilot ℚ)) = Except.ok (r, w1) ∧
      player_thinkAutonav (demoEnv ℚ) (demoPilot ℚ) (demoJumpWorld (demoPilot ℚ)) =
        Except.ok w' ∧
      (r = 1 ∨ r = 0) ∧
      w' = (if r = 1 then set_autonav AUTONAV_JUMP_BRAKE w1 else w1) ∧
      w'.player.autonav =
        (if r = 1 then AUTONAV_JUMP_BRAKE else AUTONAV_JUMP_APPROACH) ∧
      w'.player.flag_autonav = (demoJumpWorld (demoPilot ℚ)).player.flag_autonav ∧
      w'.trace = (demoJumpWorld (demoPilot ℚ)).trace ++ calls ∧
      Call.player_jump ∉ calls :=
  player_thinkAutonav_jump_approach_step (demoEnv ℚ) (demoPilot ℚ)
    (demoJumpWorld (demoPilot ℚ)) (demoPilot ℚ) ⟨⟨1000, 0, 1000, 0⟩⟩ rfl rfl (by decide)
    (by decide) (by norm_num [demoEnv, demoPilot]) rfl

/-- C14: step of a jump session in mode `AUTONAV_JUMP_BRAKE`.  When no interrupt fires,
the tick runs `player_autonavBrake`, leaving `w1`, and then: if `space_canHyperspace`
holds, the mode becomes `AUTONAV_JUMP_APPROACH`, `player_accelOver` leaves `player_acc`
at 0 and exactly one `player_jump` call is made; otherwise, if the brake returned 1, the
mode becomes `AUTONAV_JUMP_APPROACH` and no jump is requested; otherwise the world is
`w1`, still in `AUTONAV_JUMP_BRAKE`, and no jump is requested. -/
theorem player_thinkAutonav_jump_brake_step {K : Type} [LinearOrderedField K]
    (E : Env K) (pplayer : Pilot K) (w : World K) (p : Pilot K)
    (hp : w.player.p = some p) (hmode : w.player.autonav = AUTONAV_JUMP_BRAKE)
    (hl : pplayer.lockons ≤ 0) (hn : p.nav_hyperspace ≠ -1)
    (hfuel : E.HYPERSPACE_FUEL ≤ pplayer.fuel) :
    ∃ r w1 w' calls,
      player_autonavBrake E w = Except.ok (r, w1) ∧
      player_thinkAutonav E pplayer w = Except.ok w' ∧
      (r = 1 ∨ r = 0) ∧ w'.trace = w.trace ++ calls ∧
      (E.space_canHyperspace p w.cur_system = true →
        w' = (player_accelOver (set_autonav AUTONAV_JUMP_APPROACH w1)).call
          Call.player_jump ∧
        w'.player.autonav = AUTONAV_JUMP_APPROACH ∧ w'.player_acc = 0 ∧
        calls.count Call.player_jump = 1) ∧
      (E.space_canHyperspace p w.cur_system = false → r = 1 →
        w' = set_autonav AUTONAV_JUMP_APPROACH w1 ∧
        w'.player.autonav = AUTONAV_JUMP_APPROACH ∧ Call.player_jump ∉ calls) ∧
      (E.space_canHyperspace p w.cur_system = false → r = 0 →
        w' = w1 ∧ w'.player.autonav = AUTONAV_JUMP_BRAKE ∧ Call.player_jump ∉ calls) := by
  obtain ⟨hpl, -, -, cs, htr, hall⟩ := brake_gated_frame E p w
  have hnj := thrust_calls_no_jump cs hall
  have hc0 : cs.count Call.player_jump = 0 := List.count_eq_zero.2 hnj
  rw [player_thinkAutonav_jump_eq E pplayer w p hp (Or.inr hmode) hl hn hfuel,
    player_autonav_jump_brake_eq E w p hp hmode, player_autonavBrake_eq E w p hp]
  by_cases h : VMOD p.solid.vel < E.MIN_VEL_ERR
  · rw [if_pos h, if_pos h]
    by_cases hc : E.space_canHyperspace p w.cur_system = true
    · rw [if_pos hc]
      refine ⟨1, _, _, Call.pilot_face (VANGLE p.solid.vel + E.M_PI) :: cs ++
        [Call.player_accelOver, Call.player_accelOver, Call.player_jump],
        rfl, rfl, Or.inl rfl, ?_, ?_, ?_, ?_⟩
      · show (((brake_gated E p w).trace ++ [Call.player_accelOver]) ++
          [Call.player_accelOver]) ++ [Call.player_jump] = _
        rw [htr]
        simp
      · intro _
        refine ⟨rfl, rfl, rfl, ?_⟩
        simp [List.count_cons, List.count_append, hc0]
      · intro hc'
        rw [hc] at hc'
        exact absurd hc' (by decide)
      · intro _ h0
        exact absurd h0 (by decide)
    · rw [if_neg hc]
      refine ⟨1, _, _, Call.pilot_face (VANGLE p.solid.vel + E.M_PI) :: cs ++
        [Call.player_accelOver], rfl, rfl, Or.inl rfl, ?_, ?_, ?_, ?_⟩
      · show (brake_gated E p w).trace ++ [Call.player_accelOver] = _
        rw [htr]
        simp
      · intro hc'
        exact absurd hc' hc
      · intro _ _
        exact ⟨rfl, rfl, by simp [hnj]⟩
      · intro _ h0
        exact absurd h0 (by decide)
  · rw [if_neg h, if_neg h]
    by_cases hc : E.space_canHyperspace p w.cur_system = true
    · rw [if_pos hc]
      refine ⟨0, _, _, Call.pilot_face (VANGLE p.solid.vel + E.M_PI) :: cs ++
        [Call.player_accelOver, Call.player_jump], rfl, rfl, Or.inr rfl, ?_, ?_, ?_, ?_⟩
      · show ((brake_gated E p w).trace ++ [Call.player_accelOver]) ++
          [Call.player_jump] = _
        rw [htr]
        simp
      · intro _
        refine ⟨rfl, rfl, rfl, ?_⟩
        simp [List.count_cons, List.count_append, hc0]
      · intro _ h1
        exact absurd h1 (by decide)
      · intro hc'
        rw [hc] at hc'
        exact absurd hc' (by decide)
    · rw [if_neg hc]
      refine ⟨0, _, _, Call.pilot_face (VANGLE p.solid.vel + E.M_PI) :: cs,
        rfl, rfl, Or.inr rfl, htr, ?_, ?_, ?_⟩
      · intro hc'
        exact absurd hc' hc
      · intro _ h1
        exact absurd h1 (by decide)
      · intro _ _
        refine ⟨rfl, ?_, by simp [hnj]⟩
        rw [hpl, hmode]

/-- Witness for C14: the sample pilot at rest in mode `AUTONAV_JUMP_BRAKE`, with the jump
allowed; the tick asks for one jump and returns to `AUTONAV_JUMP_APPROACH`. -/
theorem player_thinkAutonav_jump_brake_step_witness :
    ∃ w' calls,
      player_thinkAutonav (demoCanJumpEnv ℚ) (demoStoppedPilot ℚ)
        (demoBrakeWorld (demoStoppedPilot ℚ)) = Except.ok w' ∧
      w'.trace = (demoBrakeWorld (demoStoppedPilot ℚ)).trace ++ calls ∧
      w'.player.autonav = AUTONAV_JUMP_APPROACH ∧ w'.player_acc = 0 ∧
      calls.count Call.player_jump = 1 := by
  obtain ⟨r, w1, w', calls, -, hthink, -, htr, hjump, -, -⟩ :=
    player_thinkAutonav_jump_brake_step (demoCanJumpEnv ℚ) (demoStoppedPilot ℚ)
      (demoBrakeWorld (demoStoppedPilot ℚ)) (demoStoppedPilot ℚ) rfl rfl (by decide)
      (by decide) (by norm_num [demoCanJumpEnv, demoEnv, demoStoppedPilot, demoPilot])
  obtain ⟨-, hm, hacc, hcount⟩ := hjump rfl
  exact ⟨w', calls, hthink, htr, hm, hacc, hcount⟩

/-- C15: step of a position session.  In mode `AUTONAV_POS_APPROACH` with no lock-on, and
for every fuel level and jump target, the tick runs `player_autonavApproach` on
`autonav_pos`: the calls are one `pilot_face` towards that point and then thrust calls
only.  If the actuator returned 1 the flag is cleared and one arrival message follows; if
it returned 0 the flag is unchanged and no message is emitted.  In both cases the mode
stays `AUTONAV_POS_APPROACH`, and the pilot (so its velocity) and the stored point are
unchanged. -/
theorem player_thinkAutonav_pos_approach_step {K : Type} [LinearOrderedField K]
    (E : Env K) (pplayer : Pilot K) (w : World K) (p : Pilot K)
    (hp : w.player.p = some p) (hmode : w.player.autonav = AUTONAV_POS_APPROACH)
    (hl : pplayer.lockons ≤ 0) :
    ∃ r w1 w' cs,
      player_autonavApproach E w.player.autonav_pos w = Except.ok (r, w1) ∧
      player_thinkAutonav E pplayer w = Except.ok w' ∧
      (r = 1 ∨ r = 0) ∧
      (∀ c ∈ cs, c = Call.player_accel 1 ∨ c = Call.player_accelOver) ∧
      (r = 1 → w'.player.flag_autonav = false ∧
        w'.trace = w.trace ++
          Call.pilot_face (E.vect_angle p.solid.pos w.player.autonav_pos) :: cs ++
          [Call.player_message msg_arrived]) ∧
      (r = 0 → w'.player.flag_autonav = w.player.flag_autonav ∧
        w'.trace = w.trace ++
          Call.pilot_face (E.vect_angle p.solid.pos w.player.autonav_pos) :: cs) ∧
      w'.player.autonav = AUTONAV_POS_APPROACH ∧
      w'.player.p = w.player.p ∧
      w'.player.autonav_pos = w.player.autonav_pos := by
  obtain ⟨hpl, -, -, cs, htr, hall⟩ := approach_gated_frame E p w.player.autonav_pos w
  rw [player_thinkAutonav_pos_eq E pplayer w hmode hl, player_autonav_pos_eq E w p hp hmode,
    player_autonavApproach_eq E _ w p hp]
  by_cases h : approach_dist p * approach_dist p >
      vect_dist2 w.player.autonav_pos p.solid.pos
  · rw [if_pos h, if_pos h]
    refine ⟨1, _, _, cs ++ [Call.player_accelOver], rfl, rfl, Or.inl rfl, ?_, ?_, ?_,
      ?_, ?_, ?_⟩
    · intro c hc
      rcases List.mem_append.1 hc with hc | hc
      · exact hall c hc
      · exact Or.inr (List.mem_singleton.1 hc)
    · intro _
      refine ⟨rfl, ?_⟩
      show ((approach_gated E p w.player.autonav_pos w).trace ++ [Call.player_accelOver]) ++
        [Call.player_message msg_arrived] = _
      rw [htr]
      simp
    · intro h0
      exact absurd h0 (by decide)
    · show (approach_gated E p w.player.autonav_pos w).player.autonav = _
      rw [hpl, hmode]
    · show (approach_gated E p w.player.autonav_pos w).player.p = _
      rw [hpl]
    · show (approach_gated E p w.player.autonav_pos w).player.autonav_pos = _
      rw [hpl]
  · rw [if_neg h, if_neg h]
    refine ⟨0, _, _, cs, rfl, rfl, Or.inr rfl, hall, ?_, ?_, ?_, ?_, ?_⟩
    · intro h1
      exact absurd h1 (by decide)
    · intro _
      exact ⟨by rw [hpl], htr⟩
    · rw [hpl, hmode]
    · rw [hpl]
    · rw [hpl]

/-- Witness for C15: the position session of the sample pilot with fuel 0 and no jump
target, 50 away from the point with braking distance 75: the tick ends the session. -/
theorem player_thinkAutonav_pos_approach_step_witness :
    ∃ w', player_thinkAutonav (demoEnv ℚ) (demoDryPilot ℚ) (demoNearPosWorld ℚ) =
        Except.ok w' ∧
      w'.player.flag_autonav = false ∧ w'.player.autonav = AUTONAV_POS_APPROACH ∧
      ∃ calls, w'.trace = calls ++ [Call.player_message msg_arrived] := by
  obtain ⟨r, w1, w', cs, happ, hthink, hr, -, h1, -, hm, -, -⟩ :=
    player_thinkAutonav_pos_approach_step (demoEnv ℚ) (demoDryPilot ℚ)
      (demoNearPosWorld ℚ) (demoDryPilot ℚ) rfl rfl (by decide)
  have hr1 : r = 1 := by
    rw [player_autonavApproach_eq _ _ _ (demoDryPilot ℚ) rfl] at happ
    have hd : approach_dist (demoDryPilot ℚ) * approach_dist (demoDryPilot ℚ) >
        vect_dist2 (demoNearPosWorld ℚ).player.autonav_pos (demoDryPilot ℚ).solid.pos := by
      norm_num [approach_dist, approach_time, approach_vel, VMOD, vect_dist2, demoPilot,
        demoDryPilot, demoNearPosWorld]
    rw [if_pos hd] at happ
    injection happ with happ
    exact (congrArg Prod.fst happ).symm
  obtain ⟨hflag, htr⟩ := h1 hr1
  exact ⟨w', hthink, hflag, hm, _, htr⟩

/-! ## The jump list -/

/-- The lookup `jump_at` fails exactly on indices outside the list. -/
theorem jump_at_eq_none_iff {K : Type} [LinearOrderedField K] (sys : StarSystem K)
    (i : Int) : jump_at sys i = none ↔ ¬ (0 ≤ i ∧ i < sys.jumps.length) := by
  unfold jump_at
  by_cases h : 0 ≤ i
  · rw [if_pos h, List.get?_eq_none]
    constructor
    · intro hlen hc
      have := hc.2
      omega
    · intro hc
      by_contra hlt
      apply hc
      refine ⟨h, ?_⟩
      omega
  · rw [if_neg h]
    simp [h]

/-- C16, counterexample: the jump session of the sample pilot with jump index 5 selected
in a system with one jump point, no lock-on and fuel equal to the cost.  The tick indexes
the jump list with 5 and ends in the failed lookup. -/
theorem player_thinkAutonav_stale_jump_index :
    (demoJumpWorld (demoStalePilot ℚ)).player.autonav = AUTONAV_JUMP_APPROACH ∧
    (demoStalePilot ℚ).lockons = 0 ∧
    (demoEnv ℚ).HYPERSPACE_FUEL ≤ (demoStalePilot ℚ).fuel ∧
    (demoStalePilot ℚ).nav_hyperspace = 5 ∧
    (demoJumpWorld (demoStalePilot ℚ)).cur_system.jumps.length = 1 ∧
    player_thinkAutonav (demoEnv ℚ) (demoStalePilot ℚ) (demoJumpWorld (demoStalePilot ℚ)) =
      Except.error Fault.jump_index := by
  refine ⟨rfl, rfl, by norm_num [demoEnv, demoStalePilot, demoPilot], rfl, rfl, ?_⟩
  rw [player_thinkAutonav_jump_eq _ _ _ (demoStalePilot ℚ) rfl (Or.inl rfl) (by decide)
    (by decide) (by norm_num [demoEnv, demoStalePilot, demoPilot])]
  rfl

/-- C16 (amended): the jump list is indexed without a range check.  In mode
`AUTONAV_JUMP_APPROACH` with no lock-on, a target other than -1 and enough fuel, the tick
looks up `jumps[nav_hyperspace]`: when `0 ≤ nav_hyperspace < length jumps` the lookup
succeeds and the tick returns a world; for any other index the tick ends in the failed
lookup. -/
theorem player_thinkAutonav_jump_lookup {K : Type} [LinearOrderedField K] (E : Env K)
    (pplayer : Pilot K) (w : World K) (p : Pilot K) (hp : w.player.p = some p)
    (hmode : w.player.autonav = AUTONAV_JUMP_APPROACH)
    (hl : pplayer.lockons ≤ 0) (hn : p.nav_hyperspace ≠ -1)
    (hfuel : E.HYPERSPACE_FUEL ≤ pplayer.fuel) :
    ((0 ≤ p.nav_hyperspace ∧ p.nav_hyperspace < w.cur_system.jumps.length) →
      ∃ jp w', jump_at w.cur_system p.nav_hyperspace = some jp ∧
        player_thinkAutonav E pplayer w = Except.ok w') ∧
    (¬ (0 ≤ p.nav_hyperspace ∧ p.nav_hyperspace < w.cur_system.jumps.length) →
      player_thinkAutonav E pplayer w = Except.error Fault.jump_index) := by
  rw [player_thinkAutonav_jump_eq E pplayer w p hp (Or.inl hmode) hl hn hfuel]
  constructor
  · intro hin
    cases hjp : jump_at w.cur_system p.nav_hyperspace with
    | none => exact absurd hin ((jump_at_eq_none_iff _ _).1 hjp)
    | some jp =>
      rw [player_autonav_jump_approach_eq E w p jp hp hmode hjp]
      by_cases h : approach_dist p * approach_dist p > vect_dist2 jp.pos p.solid.pos
      · rw [if_pos h]
        exact ⟨jp, _, rfl, rfl⟩
      · rw [if_neg h]
        exact ⟨jp, _, rfl, rfl⟩
  · intro hout
    have hjp := (jump_at_eq_none_iff w.cur_system p.nav_hyperspace).2 hout
    unfold player_autonav
    rw [hmode]
    simp only [hp, hjp]

/-- Witness for C16 (amended): index 0 of the one-element jump list is looked up, index 5
is not found. -/
theorem player_thinkAutonav_jump_lookup_witness :
    (∃ jp w', jump_at (demoJumpWorld (demoPilot ℚ)).cur_system (demoPilot ℚ).nav_hyperspace =
        some jp ∧
      player_thinkAutonav (demoEnv ℚ) (demoPilot ℚ) (demoJumpWorld (demoPilot ℚ)) =
        Except.ok w') ∧
    player_thinkAutonav (demoEnv ℚ) (demoStalePilot ℚ) (demoJumpWorld (demoStalePilot ℚ)) =
      Except.error Fault.jump_index :=
  ⟨(player_thinkAutonav_jump_lookup (demoEnv ℚ) (demoPilot ℚ) (demoJumpWorld (demoPilot ℚ))
      (demoPilot ℚ) rfl rfl (by decide) (by decide)
      (by norm_num [demoEnv, demoPilot])).1 (by decide),
    (player_thinkAutonav_jump_lookup (demoEnv ℚ) (demoStalePilot ℚ)
      (demoJumpWorld (demoStalePilot ℚ)) (demoStalePilot ℚ) rfl rfl (by decide) (by decide)
      (by norm_num [demoEnv, demoStalePilot, demoPilot])).2 (by decide)⟩

/-! ## Bounds of the predictor -/

/-- C17: the braking estimate is bounded in the velocity.  For a pilot with positive
thrust, mass and turn rate, top speed `s ≥ 0` and velocity modulus `|vel| ≥ 0`, the local
`time` of `player_autonavApproach` is at most `1.5 * s * mass / thrust`, the local `dist`
is at most `s * (1.5 * s * mass / thrust + 1.1 * 180 / turn)`, and once `|vel| ≥ 1.5 * s`
the value of `dist` is given by `s`, `thrust`, `mass` and `turn` alone, so it is the same
for every such velocity.  Stated in any linearly ordered field, the reals included. -/
theorem approach_estimates_bounded {K : Type} [LinearOrderedField K] (p : Pilot K)
    (hthrust : 0 < p.thrust) (hmass : 0 < p.solid.mass) (hturn : 0 < p.turn)
    (hspeed : 0 ≤ p.speed) (hvel : 0 ≤ VMOD p.solid.vel) :
    approach_time p ≤ 1.5 * p.speed * p.solid.mass / p.thrust ∧
    approach_dist p ≤
      p.speed * (1.5 * p.speed * p.solid.mass / p.thrust + 1.1 * 180 / p.turn) ∧
    (1.5 * p.speed ≤ VMOD p.solid.vel →
      approach_dist p =
        p.speed * (1.5 * p.speed * p.solid.mass / p.thrust + 1.1 * 180 / p.turn) -
          0.5 * (p.thrust / p.solid.mass) *
            (1.5 * p.speed * p.solid.mass / p.thrust) ^ 2 ∧
      ∀ v : Vector2d K, 1.5 * p.speed ≤ VMOD v →
        approach_dist { p with solid := { p.solid with vel := v } } = approach_dist p) := by
  have ha : 0 < p.thrust / p.solid.mass := div_pos hthrust hmass
  have hT : 1.5 * p.speed * p.solid.mass / p.thrust =
      1.5 * p.speed / (p.thrust / p.solid.mass) := by
    field_simp
  have htime : approach_time p ≤ 1.5 * p.speed * p.solid.mass / p.thrust := by
    rw [hT]
    unfold approach_time
    exact div_le_div_of_nonneg_right (min_le_left _ _) ha.le
  have hm0 : 0 ≤ min (1.5 * p.speed) (VMOD p.solid.vel) :=
    le_min (by positivity) hvel
  have ht0 : 0 ≤ approach_time p := div_nonneg hm0 ha.le
  have hc0 : 0 ≤ approach_vel p := le_min hspeed hvel
  have hcs : approach_vel p ≤ p.speed := min_le_left _ _
  have hpad : 0 ≤ 1.1 * 180 / p.turn := div_nonneg (by norm_num) hturn.le
  have hfast : ∀ q : Pilot K, q.speed = p.speed → q.thrust = p.thrust →
      q.solid.mass = p.solid.mass → q.turn = p.turn → 1.5 * p.speed ≤ VMOD q.solid.vel →
      approach_dist q =
        p.speed * (1.5 * p.speed * p.solid.mass / p.thrust + 1.1 * 180 / p.turn) -
          0.5 * (p.thrust / p.solid.mass) *
            (1.5 * p.speed * p.solid.mass / p.thrust) ^ 2 := by
    intro q h1 h2 h3 h4 hq
    have hsv : p.speed ≤ VMOD q.solid.vel := by
      refine le_trans ?_ hq
      norm_num
      linarith
    unfold approach_dist approach_time approach_vel
    rw [h1, h2, h3, h4, min_eq_left hq, min_eq_left hsv, hT]
    ring
  refine ⟨htime, ?_, ?_⟩
  · have hsq : 0 ≤ 0.5 * (p.thrust / p.solid.mass) * approach_time p * approach_time p := by
      have h05 : (0 : K) ≤ 0.5 := by norm_num
      exact mul_nonneg (mul_nonneg (mul_nonneg h05 ha.le) ht0) ht0
    have hmul : approach_vel p * (approach_time p + 1.1 * 180 / p.turn) ≤
        p.speed * (1.5 * p.speed * p.solid.mass / p.thrust + 1.1 * 180 / p.turn) :=
      mul_le_mul hcs (by linarith) (by linarith) hspeed
    unfold approach_dist
    linarith
  · intro hfastp
    refine ⟨hfast p rfl rfl rfl rfl hfastp, ?_⟩
    intro v hv
    rw [hfast p rfl rfl rfl rfl hfastp]
    exact hfast { p with solid := { p.solid with vel := v } } rfl rfl rfl rfl hv

/-- Witness for C17 over the reals: the sample pilot (top speed 200, thrust 500, mass 10,
turn 90), whose time estimate is bounded by 6 and braking distance by 1640. -/
theorem approach_estimates_bounded_witness :
    approach_time (demoPilot ℝ) ≤ 6 ∧ approach_dist (demoPilot ℝ) ≤ 1640 := by
  obtain ⟨h1, h2, -⟩ := approach_estimates_bounded (demoPilot ℝ) (by norm_num [demoPilot])
    (by norm_num [demoPilot]) (by norm_num [demoPilot]) (by norm_num [demoPilot])
    (by norm_num [demoPilot, VMOD])
  constructor
  · refine le_trans h1 ?_
    norm_num [demoPilot]
  · refine le_trans h2 ?_
    norm_num [demoPilot]

/-- C18: evaluation of both start-for-jump entry points under manual control, on the
sample world with a jump target and fuel equal to the cost.  `player_autonavStart`
returns the world unchanged; `player_autonavStartWindow` emits "Autonav initialized.",
sets the flag and destroys the window. -/
theorem player_autonavStartWindow_ignores_manual_control :
    ({ demoPilot ℚ with manual_control := true } : Pilot ℚ).manual_control = true ∧
    player_autonavStart (demoEnv ℚ)
        (demoWorldWith { demoPilot ℚ with manual_control := true }) =
      Except.ok (demoWorldWith { demoPilot ℚ with manual_control := true }) ∧
    player_autonavStartWindow (demoEnv ℚ) 7
        (demoWorldWith { demoPilot ℚ with manual_control := true }) =
      Except.ok
        { demoWorldWith { demoPilot ℚ with manual_control := true } with
          player := { (demoWorldWith { demoPilot ℚ with manual_control := true }).player with
            flag_autonav := true }
          trace := [Call.player_message msg_initialized, Call.window_destroy 7] } := by
  refine ⟨rfl, ?_, ?_⟩
  · simp [player_autonavStart, demoWorldWith]
  · simp [player_autonavStartWindow, demoWorldWith, demoWorld, demoPilot, demoEnv,
      player_message, World.call, player_setFlag_AUTONAV]

/-! ## Completion of the approach -/

/-- C19: completion of the approach cuts thrust.  With a pilot present
`player_autonavApproach` returns 1 or 0; whenever it returns 1, `player_acc` is 0
afterwards, whatever the gating did earlier in the call; whenever it returns 0 with
the facing error within `MIN_DIR_ERR` and `player_acc` equal to 0 or 1 on entry,
`player_acc` is 1 afterwards. -/
theorem player_autonavApproach_completion_acc {K : Type} [LinearOrderedField K]
    (E : Env K) (w : World K) (p : Pilot K) (pos : Vector2d K)
    (hp : w.player.p = some p) :
    ∃ r w', player_autonavApproach E pos w = Except.ok (r, w') ∧ (r = 1 ∨ r = 0) ∧
      (r = 1 → w'.player_acc = 0) ∧
      (r = 0 → |E.pilot_face p (E.vect_angle p.solid.pos pos)| < E.MIN_DIR_ERR →
        (w.player_acc = 0 ∨ w.player_acc = 1) → w'.player_acc = 1) := by
  rw [player_autonavApproach_eq E pos w p hp]
  by_cases h : approach_dist p * approach_dist p > vect_dist2 pos p.solid.pos
  · rw [if_pos h]
    exact ⟨1, _, rfl, Or.inl rfl, fun _ => rfl, fun h0 => absurd h0 (by decide)⟩
  · rw [if_neg h]
    refine ⟨0, _, rfl, Or.inr rfl, fun h1 => absurd h1 (by decide), ?_⟩
    intro _ hd hacc
    unfold approach_gated thrust_gate
    rw [if_pos hd]
    rcases hacc with h0 | h1
    · have hlt : (w.call (Call.pilot_face (E.vect_angle p.solid.pos pos))).player_acc < 1 := by
        show w.player_acc < 1
        rw [h0]
        exact zero_lt_one
      rw [if_pos hlt]
      rfl
    · have hlt : ¬ (w.call (Call.pilot_face (E.vect_angle p.solid.pos pos))).player_acc < 1 := by
        show ¬ w.player_acc < 1
        rw [h1]
        exact lt_irrefl _
      rw [if_neg hlt]
      exact h1

/-- Witness for C19: the sample pilot, aligned with its target, with braking distance 75.
At 50 from the target the approach returns 1 with `player_acc` 0, thrust having been
commanded first; at 1000 it returns 0 with `player_acc` 1. -/
theorem player_autonavApproach_completion_acc_witness :
    (∃ w', player_autonavApproach (demoEnv ℚ) ⟨50, 0, 50, 0⟩ (demoWorld ℚ) =
        Except.ok (1, w') ∧ w'.player_acc = 0 ∧
      Call.player_accel 1 ∈ w'.trace) ∧
    (∃ w', player_autonavApproach (demoEnv ℚ) ⟨1000, 0, 1000, 0⟩ (demoWorld ℚ) =
        Except.ok (0, w') ∧ w'.player_acc = 1) := by
  constructor
  · obtain ⟨r, w', h, -, h1, -⟩ := player_autonavApproach_completion_acc (demoEnv ℚ)
      (demoWorld ℚ) (demoPilot ℚ) ⟨50, 0, 50, 0⟩ rfl
    rw [player_autonavApproach_eq _ _ _ (demoPilot ℚ) rfl] at h
    have hd : approach_dist (demoPilot ℚ) * approach_dist (demoPilot ℚ) >
        vect_dist2 (⟨50, 0, 50, 0⟩ : Vector2d ℚ) (demoPilot ℚ).solid.pos := by
      norm_num [approach_dist, approach_time, approach_vel, VMOD, vect_dist2, demoPilot]
    rw [if_pos hd] at h
    injection h with h
    have hr : r = 1 := (congrArg Prod.fst h).symm
    have hw : w' = player_accelOver (approach_gated (demoEnv ℚ) (demoPilot ℚ)
        ⟨50, 0, 50, 0⟩ (demoWorld ℚ)) := (congrArg Prod.snd h).symm
    refine ⟨w', ?_, h1 hr, ?_⟩
    · rw [player_autonavApproach_eq _ _ _ (demoPilot ℚ) rfl, if_pos hd, hw]
    · rw [hw]
      norm_num [player_accelOver, approach_gated, thrust_gate, player_accel, World.call,
        demoEnv, demoWorld]
  · obtain ⟨r, w', h, -, -, h0⟩ := player_autonavApproach_completion_acc (demoEnv ℚ)
      (demoWorld ℚ) (demoPilot ℚ) ⟨1000, 0, 1000, 0⟩ rfl
    rw [player_autonavApproach_eq _ _ _ (demoPilot ℚ) rfl] at h
    have hd : ¬ approach_dist (demoPilot ℚ) * approach_dist (demoPilot ℚ) >
        vect_dist2 (⟨1000, 0, 1000, 0⟩ : Vector2d ℚ) (demoPilot ℚ).solid.pos := by
      norm_num [approach_dist, approach_time, approach_vel, VMOD, vect_dist2, demoPilot]
    rw [if_neg hd] at h
    injection h with h
    have hr : r = 0 := (congrArg Prod.fst h).symm
    have hw : w' = approach_gated (demoEnv ℚ) (demoPilot ℚ)
        ⟨1000, 0, 1000, 0⟩ (demoWorld ℚ) := (congrArg Prod.snd h).symm
    refine ⟨w', ?_, h0 hr (by norm_num [demoEnv]) (Or.inl rfl)⟩
    rw [player_autonavApproach_eq _ _ _ (demoPilot ℚ) rfl, if_neg hd, hw]

/-- C20, counterexample over the reals: a pilot at rest (velocity modulus 0) with thrust
500, mass 10, turn rate 90 and top speed -1, aiming at its own position.  The locals are
`vel = -1` and `time = -0.03`, the braking distance is `-2.1925`, its square exceeds the
squared distance 0, and `player_autonavApproach` returns 1. -/
theorem player_autonavApproach_at_rest_negative_speed :
    VMOD (demoNegSpeedPilot ℝ).solid.vel = 0 ∧ 0 < (demoNegSpeedPilot ℝ).thrust ∧
    0 < (demoNegSpeedPilot ℝ).solid.mass ∧ 0 < (demoNegSpeedPilot ℝ).turn ∧
    vect_dist2 (demoNegSpeedPilot ℝ).solid.pos (demoNegSpeedPilot ℝ).solid.pos = 0 ∧
    approach_dist (demoNegSpeedPilot ℝ) = -2.1925 ∧
    player_autonavApproach (demoEnv ℝ) (demoNegSpeedPilot ℝ).solid.pos
        (demoWorldWith (demoNegSpeedPilot ℝ)) =
      Except.ok (1, player_accelOver (approach_gated (demoEnv ℝ) (demoNegSpeedPilot ℝ)
        (demoNegSpeedPilot ℝ).solid.pos (demoWorldWith (demoNegSpeedPilot ℝ)))) := by
  have hdist : approach_dist (demoNegSpeedPilot ℝ) = -2.1925 := by
    norm_num [approach_dist, approach_time, approach_vel, VMOD, demoNegSpeedPilot,
      demoStoppedPilot, demoPilot]
  have hd2 : vect_dist2 (demoNegSpeedPilot ℝ).solid.pos (demoNegSpeedPilot ℝ).solid.pos = 0 := by
    simp [vect_dist2]
  refine ⟨rfl, by norm_num [demoNegSpeedPilot, demoStoppedPilot, demoPilot],
    by norm_num [demoNegSpeedPilot, demoStoppedPilot, demoPilot],
    by norm_num [demoNegSpeedPilot, demoStoppedPilot, demoPilot], hd2, hdist, ?_⟩
  rw [player_autonavApproach_eq _ _ _ (demoNegSpeedPilot ℝ) rfl, hd2, hdist, if_pos]
  norm_num

/-- C20 (amended): a pilot at rest with a non-negative top speed never completes an
approach.  With velocity modulus 0, top speed `≥ 0` and positive thrust, mass and turn
rate, the braking distance is 0 and `player_autonavApproach` returns 0 for every target,
the pilot's own position included.  Hence on that tick `player_autonav` in mode
`AUTONAV_POS_APPROACH` keeps the flag and emits no message (the calls are one
`pilot_face` and thrust calls), and in mode `AUTONAV_JUMP_APPROACH` with the jump point
in the list it keeps the mode. -/
theorem player_autonavApproach_at_rest {K : Type} [LinearOrderedField K] (E : Env K)
    (w : World K) (p : Pilot K) (hp : w.player.p = some p)
    (_hthrust : 0 < p.thrust) (_hmass : 0 < p.solid.mass) (_hturn : 0 < p.turn)
    (hspeed : 0 ≤ p.speed) (hvel : VMOD p.solid.vel = 0) :
    approach_dist p = 0 ∧
    (∀ pos, player_autonavApproach E pos w = Except.ok (0, approach_gated E p pos w)) ∧
    (w.player.autonav = AUTONAV_POS_APPROACH →
      ∃ w' cs, player_autonav E w = Except.ok w' ∧
        w'.player.flag_autonav = w.player.flag_autonav ∧
        w'.player.autonav = AUTONAV_POS_APPROACH ∧
        w'.trace = w.trace ++
          Call.pilot_face (E.vect_angle p.solid.pos w.player.autonav_pos) :: cs ∧
        ∀ c ∈ cs, c = Call.player_accel 1 ∨ c = Call.player_accelOver) ∧
    (w.player.autonav = AUTONAV_JUMP_APPROACH →
      ∀ jp, jump_at w.cur_system p.nav_hyperspace = some jp →
        ∃ w', player_autonav E w = Except.ok w' ∧
          w'.player.autonav = AUTONAV_JUMP_APPROACH ∧
          w'.player.flag_autonav = w.player.flag_autonav) := by
  have hdist : approach_dist p = 0 := by
    have hm : min (1.5 * p.speed) (0 : K) = 0 := min_eq_right (by positivity)
    have hc : min p.speed (0 : K) = 0 := min_eq_right hspeed
    unfold approach_dist approach_time approach_vel
    rw [hvel, hm, hc]
    simp
  have hnot : ∀ pos : Vector2d K,
      ¬ approach_dist p * approach_dist p > vect_dist2 pos p.solid.pos := by
    intro pos
    rw [hdist, mul_zero]
    unfold vect_dist2
    exact not_lt.mpr (add_nonneg (mul_self_nonneg _) (mul_self_nonneg _))
  refine ⟨hdist, ?_, ?_, ?_⟩
  · intro pos
    rw [player_autonavApproach_eq E pos w p hp, if_neg (hnot pos)]
  · intro hmode
    obtain ⟨hpl, -, -, cs, htr, hall⟩ := approach_gated_frame E p w.player.autonav_pos w
    refine ⟨approach_gated E p w.player.autonav_pos w, cs, ?_, ?_, ?_, htr, hall⟩
    · rw [player_autonav_pos_eq E w p hp hmode, if_neg (hnot _)]
    · rw [hpl]
    · rw [hpl, hmode]
  · intro hmode jp hjp
    obtain ⟨hpl, -, -, -, -, -⟩ := approach_gated_frame E p jp.pos w
    refine ⟨approach_gated E p jp.pos w, ?_, ?_, ?_⟩
    · rw [player_autonav_jump_approach_eq E w p jp hp hmode hjp, if_neg (hnot _)]
    · rw [hpl, hmode]
    · rw [hpl]

/-- Witness for C20 (amended) over the reals: the sample pilot at rest (top speed 200),
aiming at its own position, and in a position session. -/
theorem player_autonavApproach_at_rest_witness :
    approach_dist (demoStoppedPilot ℝ) = 0 ∧
    player_autonavApproach (demoEnv ℝ) (demoStoppedPilot ℝ).solid.pos
        (demoPosWorld (demoStoppedPilot ℝ)) =
      Except.ok (0, approach_gated (demoEnv ℝ) (demoStoppedPilot ℝ)
        (demoStoppedPilot ℝ).solid.pos (demoPosWorld (demoStoppedPilot ℝ))) ∧
    ∃ w' cs, player_autonav (demoEnv ℝ) (demoPosWorld (demoStoppedPilot ℝ)) = Except.ok w' ∧
      w'.player.flag_autonav = (demoPosWorld (demoStoppedPilot ℝ)).player.flag_autonav ∧
      w'.player.autonav = AUTONAV_POS_APPROACH ∧
      w'.trace = (demoPosWorld (demoStoppedPilot ℝ)).trace ++
        Call.pilot_face ((demoEnv ℝ).vect_angle (demoStoppedPilot ℝ).solid.pos
          (demoPosWorld (demoStoppedPilot ℝ)).player.autonav_pos) :: cs ∧
      ∀ c ∈ cs, c = Call.player_accel 1 ∨ c = Call.player_accelOver := by
  obtain ⟨h1, h2, h3, -⟩ := player_autonavApproach_at_rest (demoEnv ℝ)
    (demoPosWorld (demoStoppedPilot ℝ)) (demoStoppedPilot ℝ) rfl
    (by norm_num [demoStoppedPilot, demoPilot]) (by norm_num [demoStoppedPilot, demoPilot])
    (by norm_num [demoStoppedPilot, demoPilot]) (by norm_num [demoStoppedPilot, demoPilot])
    rfl
  exact ⟨h1, h2 _, h3 rfl⟩

end Naev
